import Mathlib

/-! # KubeVirt / Guacamole operator: the reconciliation engine

A shallow embedding of `internal/controller/guacamole_integration_controller.go`.

* Go `map[string]string` values are association lists read by key; a map that may be
  `nil` is an `Option` of such a list.
* The cluster store is restricted to the resource stored under the key of the request;
  every call that leaves the process (store reads and writes, HTTP exchanges with the
  gateway) takes its outcome from an `Env`, one per `Reconcile` invocation.
* The HTTP requests handed to the HTTP client are appended to a log, and so are the
  objects handed to the store's `Update`.
* `strings.ToLower` belongs to the Go standard library and is a parameter `toLower`.
-/

namespace GuacOperator

/-! ## String maps -/

/-- A Go `map[string]string` with at least an allocated table: key/value entries. -/
abbrev StrMap := List (String × String)

/-- The comma-ok read `v, exists := m[k]` on an allocated map. -/
def StrMap.find? : StrMap → String → Option String
  | [], _ => none
  | (k', v') :: m, k => if k' = k then some v' else StrMap.find? m k

/-- The assignment `m[k] = v`: overwrite the entry of `k`, or add one. -/
def StrMap.insert : StrMap → String → String → StrMap
  | [], k, v => [(k, v)]
  | (k', v') :: m, k, v => if k' = k then (k, v) :: m else (k', v') :: StrMap.insert m k v

/-- The comma-ok read `v, exists := m[k]` on a map that may be `nil`. -/
def lookup (m : Option StrMap) (k : String) : Option String :=
  match m with
  | none => none
  | some m => m.find? k

/-- The plain read `m[k]`: the zero value `""` when the key is missing or the map is `nil`. -/
def index (m : Option StrMap) (k : String) : String :=
  (lookup m k).getD ""

/-! ## Constants -/

def VMWatcherFinalizer : String := "vm-watcher.setofangdar.polito.it/finalizer"
def ProcessedAnnotation : String := "vm-watcher.setofangdar.polito.it/processed"
def LastStatusAnnotation : String := "vm-watcher.setofangdar.polito.it/last-status"
def GuacamoleConnectionIDAnnotation : String :=
  "vm-watcher.setofangdar.polito.it/guacamole-connection-id"

/-- Go `time.Duration`: a count of nanoseconds. -/
abbrev Duration := Nat

def Second : Duration := 1000000000
def Minute : Duration := 60 * Second

def DefaultRetryDelay : Duration := 2 * Minute
def MaxRetryAttempts : Nat := 3

def VirtualMachineStatusRunning : String := "Running"
def VirtualMachineStatusStopped : String := "Stopped"

/-! ## Resources -/

/-- The fields of a KubeVirt `VirtualMachine` that the controller reads or writes. -/
structure VirtualMachine where
  Namespace : String
  Name : String
  Labels : Option StrMap
  Annotations : Option StrMap
  Finalizers : List String
  DeletionTimestamp : Option Nat
  Generation : Int
  PrintableStatus : String
  deriving DecidableEq, Repr

structure VirtualMachineInstanceNetworkInterface where
  IP : String
  deriving DecidableEq, Repr

/-- The fields of a `VirtualMachineInstance` read by the controller: `Status.Interfaces`. -/
structure VirtualMachineInstance where
  Interfaces : List VirtualMachineInstanceNetworkInterface
  deriving DecidableEq, Repr

/-- The fields of a core `Service` read by the controller; `Selector` is `Spec.Selector`. -/
structure Service where
  Namespace : String
  Name : String
  Selector : Option StrMap
  deriving DecidableEq, Repr

/-! ## Gateway wire types -/

structure GuacamoleAuthResponse where
  AuthToken : String
  Username : String
  DataSource : String
  AvailableDataSources : List String
  deriving DecidableEq, Repr

structure GuacamoleConnection where
  ParentIdentifier : String
  Name : String
  Protocol : String
  Parameters : StrMap
  Attributes : StrMap
  deriving DecidableEq, Repr

structure GuacamoleConnectionResponse where
  Identifier : String
  ParentIdentifier : String
  Name : String
  Protocol : String
  Parameters : Option StrMap
  Attributes : Option StrMap
  deriving DecidableEq, Repr

/-! ## Errors and outcomes of external calls -/

/-- Go `error` values: the not-found answer of the store, any other failure of a
collaborator, and the errors made by `fmt.Errorf`. -/
inductive Error where
  | notFound
  | external (msg : String)
  | msg (text : String)
  | status (text : String) (code : Nat)
  | wrap (text : String) (inner : Error)
  deriving DecidableEq, Repr

/-- The function `client.IgnoreNotFound`: `nil` for a not-found error, the error otherwise. -/
def IgnoreNotFound : Error → Option Error
  | .notFound => none
  | e => some e

/-- What one HTTP exchange comes to: the request could not be built
(`http.NewRequestWithContext` failed, nothing is sent), the client's `Do` failed, or a
response came back with a status code and a body that decodes (`some`) or does not. -/
inductive HTTPResult (α : Type) where
  | requestError
  | transportError
  | response (statusCode : Nat) (body : Option α)
  deriving DecidableEq, Repr

/-- The outcomes of the external calls of one `Reconcile` invocation. -/
structure Env where
  /-- A failure of `r.Get` on the virtual machine; without one the store answers. -/
  getVM : Option Error
  /-- The answer of `r.Get` on the running instance of the virtual machine. -/
  getVMI : Except Error VirtualMachineInstance
  /-- The answer of `r.List` on the services of the virtual machine's namespace. -/
  listServices : Except Error (List Service)
  /-- A failure of `r.Update`; without one the store takes the object. -/
  storeUpdate : Option Error
  auth : HTTPResult GuacamoleAuthResponse
  create : HTTPResult GuacamoleConnectionResponse
  update : HTTPResult Unit
  delete : HTTPResult Unit

/-- The HTTP requests handed to the HTTP client. -/
inductive GatewayCall where
  | authenticate (username password : String)
  | createConnection (dataSource token : String) (connection : GuacamoleConnection)
  | updateConnection (dataSource token identifier : String) (connection : GuacamoleConnection)
  | deleteConnection (dataSource token identifier : String)
  deriving DecidableEq, Repr

/-- The reconciler's configuration. -/
structure VirtualMachineReconciler where
  GuacamoleBaseURL : String
  GuacamoleUsername : String
  GuacamolePassword : String
  deriving DecidableEq, Repr

/-! ## Endpoint resolver -/

/-- The loop over `vmi.Status.Interfaces`: the first non-empty IP. -/
def firstIP : List VirtualMachineInstanceNetworkInterface → Option String
  | [] => none
  | iface :: rest => if iface.IP ≠ "" then some iface.IP else firstIP rest

/-- The loop `for key, value := range svc.Spec.Selector`: `matches` stays true when no
entry has `vm.Labels[key] != value`. -/
def selectorMatches (labels : Option StrMap) : StrMap → Bool
  | [] => true
  | (key, value) :: rest =>
    if index labels key ≠ value then false else selectorMatches labels rest

/-- The address `fmt.Sprintf("%s.%s.svc.cluster.local", svc.Name, svc.Namespace)`. -/
def serviceDNS (svc : Service) : String :=
  svc.Name ++ "." ++ svc.Namespace ++ ".svc.cluster.local"

/-- The loop over `services.Items`: the address of the first service with a non-nil
selector that matches. -/
def scanServices (vm : VirtualMachine) : List Service → Option String
  | [] => none
  | svc :: rest =>
    match svc.Selector with
    | some selector =>
      if selectorMatches vm.Labels selector then some (serviceDNS svc)
      else scanServices vm rest
    | none => scanServices vm rest

def getVMHostname (env : Env) (vm : VirtualMachine) : Except Error String :=
  match env.getVMI with
  | .error err =>
    match IgnoreNotFound err with
    | some e => .error (.wrap "failed to get VMI" e)
    | none => .ok vm.Name
  | .ok vmi =>
    match firstIP vmi.Interfaces with
    | some ip => .ok ip
    | none =>
      match env.listServices with
      | .ok services =>
        match scanServices vm services with
        | some host => .ok host
        | none => .ok vm.Name
      | .error _ => .ok vm.Name

/-! ## Connection profile builder -/

/-- The first `switch protocol` of `buildGuacamoleConnection`: default ports by protocol. -/
def defaultPort (protocol port : String) : String :=
  if protocol = "vnc" then
    if port = "3389" then "5900" else port
  else if protocol = "rdp" then
    if port = "5900" then "3389" else port
  else if protocol = "ssh" then
    if port = "3389" ∨ port = "5900" then "22" else port
  else port

/-- The statement `if v, exists := vm.Annotations[tag]; exists { parameters[key] = v }`. -/
def copyAnnotation (annotations : Option StrMap) (tag key : String) (parameters : StrMap) :
    StrMap :=
  match lookup annotations tag with
  | some v => parameters.insert key v
  | none => parameters

/-- The second `switch protocol` of `buildGuacamoleConnection`: protocol-specific parameters. -/
def protocolParameters (protocol : String) (annotations : Option StrMap)
    (parameters : StrMap) : StrMap :=
  if protocol = "vnc" then
    let parameters := parameters.insert "color-depth" "24"
    let parameters := parameters.insert "cursor" "remote"
    let parameters := parameters.insert "read-only" "false"
    let parameters := parameters.insert "swap-red-blue" "false"
    let parameters := parameters.insert "disable-copy" "false"
    let parameters := parameters.insert "disable-paste" "false"
    let parameters := parameters.insert "enable-audio" "false"
    copyAnnotation annotations "vm-watcher.setofangdar.polito.it/password" "password" parameters
  else if protocol = "rdp" then
    let parameters := parameters.insert "security" "any"
    let parameters := parameters.insert "ignore-cert" "true"
    let parameters := parameters.insert "disable-auth" "false"
    let parameters := parameters.insert "resize-method" "reconnect"
    let parameters := parameters.insert "console-audio" "false"
    let parameters := parameters.insert "disable-audio" "false"
    let parameters := parameters.insert "enable-wallpaper" "false"
    let parameters := parameters.insert "enable-theming" "false"
    let parameters := parameters.insert "enable-font-smoothing" "false"
    let parameters :=
      copyAnnotation annotations "vm-watcher.setofangdar.polito.it/username" "username" parameters
    let parameters :=
      copyAnnotation annotations "vm-watcher.setofangdar.polito.it/password" "password" parameters
    copyAnnotation annotations "vm-watcher.setofangdar.polito.it/domain" "domain" parameters
  else if protocol = "ssh" then
    let parameters := parameters.insert "font-size" "12"
    let parameters := parameters.insert "color-scheme" ""
    let parameters := parameters.insert "scrollback" ""
    let parameters := parameters.insert "terminal-type" ""
    let parameters :=
      copyAnnotation annotations "vm-watcher.setofangdar.polito.it/username" "username" parameters
    let parameters :=
      copyAnnotation annotations "vm-watcher.setofangdar.polito.it/password" "password" parameters
    copyAnnotation annotations "vm-watcher.setofangdar.polito.it/private-key" "private-key"
      parameters
  else parameters

def emptyParams : List String :=
  ["recording-path", "recording-name", "recording-exclude-output",
   "recording-exclude-mouse", "recording-include-keys", "create-recording-path",
   "dest-host", "dest-port"]

/-- The loop over `emptyParams`: a key that is not in the map yet is set to `""`. -/
def fillEmptyParams : List String → StrMap → StrMap
  | [], parameters => parameters
  | param :: rest, parameters =>
    match parameters.find? param with
    | some _ => fillEmptyParams rest parameters
    | none => fillEmptyParams rest (parameters.insert param "")

def buildGuacamoleConnection (toLower : String → String) (env : Env) (vm : VirtualMachine) :
    Except Error GuacamoleConnection :=
  let protocol :=
    match lookup vm.Annotations "vm-watcher.setofangdar.polito.it/protocol" with
    | some customProtocol => toLower customProtocol
    | none => "rdp"
  let port :=
    match lookup vm.Annotations "vm-watcher.setofangdar.polito.it/port" with
    | some customPort => customPort
    | none => "3389"
  let port := defaultPort protocol port
  match getVMHostname env vm with
  | .error err => .error (.wrap "failed to get VM hostname" err)
  | .ok hostname =>
    let connectionName := vm.Namespace ++ "-" ++ vm.Name
    let parameters : StrMap := []
    let parameters := parameters.insert "hostname" hostname
    let parameters := parameters.insert "port" port
    let parameters := protocolParameters protocol vm.Annotations parameters
    let parameters := fillEmptyParams emptyParams parameters
    let attributes : StrMap :=
      [("max-connections", ""), ("max-connections-per-user", ""), ("weight", ""),
       ("failover-only", ""), ("guacd-port", ""), ("guacd-encryption", ""),
       ("guacd-hostname", "")]
    .ok { ParentIdentifier := "ROOT"
          Name := connectionName
          Protocol := protocol
          Parameters := parameters
          Attributes := attributes }

/-! ## Gateway client

Each function takes the log of the requests sent so far and returns it extended. -/

def authenticateWithGuacamole (r : VirtualMachineReconciler) (env : Env)
    (log : List GatewayCall) : Except Error GuacamoleAuthResponse × List GatewayCall :=
  if r.GuacamoleBaseURL = "" then
    (.error (.msg "guacamole base url not configured"), log)
  else
    match env.auth with
    | .requestError => (.error (.msg "failed to create auth request"), log)
    | .transportError =>
      (.error (.msg "failed to authenticate with Guacamole"),
        log ++ [.authenticate r.GuacamoleUsername r.GuacamolePassword])
    | .response statusCode body =>
      let log := log ++ [.authenticate r.GuacamoleUsername r.GuacamolePassword]
      if statusCode ≠ 200 then
        (.error (.status "authentication failed with status" statusCode), log)
      else
        match body with
        | none => (.error (.msg "failed to decode auth response"), log)
        | some authResp => (.ok authResp, log)

def createGuacamoleConnection (toLower : String → String) (r : VirtualMachineReconciler)
    (env : Env) (vm : VirtualMachine) (log : List GatewayCall) :
    Except Error String × List GatewayCall :=
  match authenticateWithGuacamole r env log with
  | (.error err, log) => (.error (.wrap "failed to authenticate" err), log)
  | (.ok authResp, log) =>
    match buildGuacamoleConnection toLower env vm with
    | .error err => (.error (.wrap "failed to build connection config" err), log)
    | .ok connection =>
      match env.create with
      | .requestError => (.error (.msg "failed to create request"), log)
      | .transportError =>
        (.error (.msg "failed to create connection"),
          log ++ [.createConnection authResp.DataSource authResp.AuthToken connection])
      | .response statusCode body =>
        let log := log ++ [.createConnection authResp.DataSource authResp.AuthToken connection]
        if statusCode < 200 ∨ statusCode ≥ 300 then
          (.error (.status "connection creation failed with status" statusCode), log)
        else
          match body with
          | none => (.error (.msg "failed to decode connection response"), log)
          | some connResp => (.ok connResp.Identifier, log)

def updateGuacamoleConnection (toLower : String → String) (r : VirtualMachineReconciler)
    (env : Env) (vm : VirtualMachine) (connectionID : String) (log : List GatewayCall) :
    Option Error × List GatewayCall :=
  match authenticateWithGuacamole r env log with
  | (.error err, log) => (some (.wrap "failed to authenticate" err), log)
  | (.ok authResp, log) =>
    match buildGuacamoleConnection toLower env vm with
    | .error err => (some (.wrap "failed to build connection config" err), log)
    | .ok connection =>
      match env.update with
      | .requestError => (some (.msg "failed to create request"), log)
      | .transportError =>
        (some (.msg "failed to update connection"),
          log ++ [.updateConnection authResp.DataSource authResp.AuthToken connectionID
            connection])
      | .response statusCode _ =>
        let log := log ++ [.updateConnection authResp.DataSource authResp.AuthToken
          connectionID connection]
        if statusCode < 200 ∨ statusCode ≥ 300 then
          (some (.status "connection update failed with status" statusCode), log)
        else (none, log)

def handleVMDeletion (r : VirtualMachineReconciler) (env : Env) (connectionID : String)
    (log : List GatewayCall) : Option Error × List GatewayCall :=
  if connectionID = "" then (none, log)
  else
    match authenticateWithGuacamole r env log with
    | (.error err, log) => (some (.wrap "failed to authenticate" err), log)
    | (.ok authResp, log) =>
      match env.delete with
      | .requestError => (some (.msg "failed to create delete request"), log)
      | .transportError =>
        (some (.msg "failed to delete connection"),
          log ++ [.deleteConnection authResp.DataSource authResp.AuthToken connectionID])
      | .response statusCode _ =>
        let log := log ++ [.deleteConnection authResp.DataSource authResp.AuthToken
          connectionID]
        if statusCode < 200 ∨ statusCode ≥ 300 then
          (some (.status "connection deletion failed with status" statusCode), log)
        else (none, log)

/-! ## Reconciliation engine -/

/-- The function `controllerutil.ContainsFinalizer` of controller-runtime. -/
def ContainsFinalizer (vm : VirtualMachine) (finalizer : String) : Bool :=
  vm.Finalizers.any (fun e => e = finalizer)

/-- The function `controllerutil.AddFinalizer` of controller-runtime: append unless present. -/
def AddFinalizer (vm : VirtualMachine) (finalizer : String) : VirtualMachine :=
  if ContainsFinalizer vm finalizer then vm
  else { vm with Finalizers := vm.Finalizers ++ [finalizer] }

/-- The function `controllerutil.RemoveFinalizer` of controller-runtime: drop every
occurrence. -/
def RemoveFinalizer (vm : VirtualMachine) (finalizer : String) : VirtualMachine :=
  { vm with Finalizers := vm.Finalizers.filter (fun e => e ≠ finalizer) }

/-- The value `ctrl.Result`. -/
structure Result where
  Requeue : Bool := false
  RequeueAfter : Duration := 0
  deriving DecidableEq, Repr

/-- What `Reconcile` acts on: the resource stored under the key of the request (`none`
when there is none), the requests sent to the gateway, the objects handed to `r.Update`. -/
structure World where
  vm : Option VirtualMachine
  calls : List GatewayCall
  updates : List VirtualMachine
  deriving DecidableEq, Repr

/-- The call `r.Get(ctx, req.NamespacedName, &vm)`. -/
def Get (env : Env) (w : World) : Except Error VirtualMachine :=
  match env.getVM with
  | some err => .error err
  | none =>
    match w.vm with
    | none => .error .notFound
    | some vm => .ok vm

/-- The call `r.Update(ctx, &vm)`: the object is logged, and stored unless the call fails. -/
def Update (env : Env) (vm : VirtualMachine) (w : World) : Option Error × World :=
  match env.storeUpdate with
  | some err => (some err, { w with updates := w.updates ++ [vm] })
  | none => (none, { w with vm := some vm, updates := w.updates ++ [vm] })

def handleDeletion (r : VirtualMachineReconciler) (env : Env) (vm : VirtualMachine)
    (w : World) : (Result × Option Error) × World :=
  let connectionID := index vm.Annotations GuacamoleConnectionIDAnnotation
  let w := { w with calls := (handleVMDeletion r env connectionID w.calls).2 }
  let vm := RemoveFinalizer vm VMWatcherFinalizer
  match Update env vm w with
  | (some err, w) => (({}, some err), w)
  | (none, w) => (({}, none), w)

/-- The statements `if vm.Annotations == nil { vm.Annotations = make(map[string]string) }`. -/
def allocated (annotations : Option StrMap) : StrMap :=
  match annotations with
  | none => []
  | some m => m

def Reconcile (toLower : String → String) (r : VirtualMachineReconciler) (env : Env)
    (w : World) : (Result × Option Error) × World :=
  match Get env w with
  | .error err =>
    match IgnoreNotFound err with
    | none => (({}, none), { w with calls := (handleVMDeletion r env "" w.calls).2 })
    | some e => (({}, some e), w)
  | .ok vm =>
    if vm.DeletionTimestamp ≠ none then handleDeletion r env vm w
    else if !ContainsFinalizer vm VMWatcherFinalizer then
      let vm := AddFinalizer vm VMWatcherFinalizer
      match Update env vm w with
      | (some err, w) => (({}, some err), w)
      | (none, w) => (({ Requeue := true }, none), w)
    else
      let isNewVM := index vm.Annotations ProcessedAnnotation ≠ "true"
      let currentStatus := vm.PrintableStatus
      let lastStatus := index vm.Annotations LastStatusAnnotation
      let statusChanged := lastStatus ≠ "" ∧ lastStatus ≠ currentStatus
      if isNewVM then
        if vm.PrintableStatus ≠ VirtualMachineStatusRunning then
          (({ RequeueAfter := 30 * Second }, none), w)
        else
          match createGuacamoleConnection toLower r env vm w.calls with
          | (.error _, log) =>
            (({ RequeueAfter := DefaultRetryDelay }, none), { w with calls := log })
          | (.ok connectionID, log) =>
            let w := { w with calls := log }
            let annotations := allocated vm.Annotations
            let annotations := annotations.insert ProcessedAnnotation "true"
            let annotations := annotations.insert LastStatusAnnotation currentStatus
            let annotations := annotations.insert GuacamoleConnectionIDAnnotation connectionID
            let vm := { vm with Annotations := some annotations }
            match Update env vm w with
            | (some err, w) => (({}, some err), w)
            | (none, w) => (({}, none), w)
      else if statusChanged then
        let connectionID := index vm.Annotations GuacamoleConnectionIDAnnotation
        let log :=
          if currentStatus = VirtualMachineStatusStopped ∧ connectionID ≠ "" then w.calls
          else if currentStatus = VirtualMachineStatusRunning ∧ connectionID ≠ "" then
            (updateGuacamoleConnection toLower r env vm connectionID w.calls).2
          else w.calls
        let w := { w with calls := log }
        let annotations := allocated vm.Annotations
        let annotations := annotations.insert LastStatusAnnotation currentStatus
        let vm := { vm with Annotations := some annotations }
        match Update env vm w with
        | (some err, w) => (({}, some err), w)
        | (none, w) => (({}, none), w)
      else (({}, none), w)

/-! ## Eligibility filter

The predicate functions built in `SetupWithManager`. Only virtual machines are watched, so
the events carry virtual machines and the type assertions of `UpdateFunc` are the typing
of the event. -/

/-- The value `event.CreateEvent`. -/
structure CreateEvent where
  Object : VirtualMachine
  deriving DecidableEq, Repr

/-- The value `event.UpdateEvent`. -/
structure UpdateEvent where
  ObjectOld : VirtualMachine
  ObjectNew : VirtualMachine
  deriving DecidableEq, Repr

/-- The value `event.DeleteEvent`. -/
structure DeleteEvent where
  Object : VirtualMachine
  deriving DecidableEq, Repr

def CreateFunc (_e : CreateEvent) : Bool := true

def UpdateFunc (e : UpdateEvent) : Bool :=
  let oldVM := e.ObjectOld
  let newVM := e.ObjectNew
  decide (index oldVM.Annotations ProcessedAnnotation
      ≠ index newVM.Annotations ProcessedAnnotation) ||
    decide (oldVM.PrintableStatus ≠ newVM.PrintableStatus) ||
    decide (oldVM.Generation ≠ newVM.Generation)

def DeleteFunc (_e : DeleteEvent) : Bool := true

/-! ## Reference definitions, following the specification's words -/

/-- Protocol selection as specified: the override tag value, lower-cased, defaulting to
`rdp`. -/
def specProtocol (toLower : String → String) (annotations : Option StrMap) : String :=
  match lookup annotations "vm-watcher.setofangdar.polito.it/protocol" with
  | some p => toLower p
  | none => "rdp"

/-- The starting port as specified: the override tag value, defaulting to `3389`. -/
def specStartPort (annotations : Option StrMap) : String :=
  (lookup annotations "vm-watcher.setofangdar.polito.it/port").getD "3389"

/-- The port rule as specified, on the lower-cased protocol `p` and the starting port `q`. -/
def specPort (p q : String) : String :=
  if p = "vnc" ∧ q = "3389" then "5900"
  else if p = "rdp" ∧ q = "5900" then "3389"
  else if p = "ssh" ∧ (q = "3389" ∨ q = "5900") then "22"
  else q

/-- Strict subset match as specified: every selector key/value pair is present in the
labels and equal there. -/
def strictSubsetMatch (labels : Option StrMap) (selector : StrMap) : Bool :=
  selector.all (fun kv => lookup labels kv.1 == some kv.2)

/-- A service whose label selector is matched by the virtual machine's labels. -/
def serviceMatches (vm : VirtualMachine) (svc : Service) : Bool :=
  match svc.Selector with
  | some selector => strictSubsetMatch vm.Labels selector
  | none => false

/-! ## Observations on a run -/

def isCreate : GatewayCall → Bool
  | .createConnection _ _ _ => true
  | _ => false

def isUpdate : GatewayCall → Bool
  | .updateConnection _ _ _ _ => true
  | _ => false

def isDelete : GatewayCall → Bool
  | .deleteConnection _ _ _ => true
  | _ => false

/-- Every store and gateway call of the invocation succeeds: the store reads and writes
do not fail (the running instance may be missing, which is an answer), authentication is
answered with status 200 and a body, create with a 2xx status and a body, update and
delete with a 2xx status. -/
def Env.Succeeds (env : Env) : Prop :=
  env.getVM = none ∧ env.storeUpdate = none ∧
  (∀ e, env.getVMI = .error e → e = .notFound) ∧
  (∃ a, env.auth = .response 200 (some a)) ∧
  (∃ s c, env.create = .response s (some c) ∧ 200 ≤ s ∧ s < 300) ∧
  (∃ s b, env.update = .response s b ∧ 200 ≤ s ∧ s < 300) ∧
  (∃ s b, env.delete = .response s b ∧ 200 ≤ s ∧ s < 300)

/-- The identifier in the body of the gateway's answer to the create request. -/
def createdId (env : Env) : String :=
  match env.create with
  | .response _ (some connResp) => connResp.Identifier
  | _ => ""

/-- The create exchange fails: the request cannot be built, no response comes back, the
status is outside 2xx, or the body does not decode. -/
def createExchangeFails : HTTPResult GuacamoleConnectionResponse → Bool
  | .response statusCode (some _) => decide (statusCode < 200 ∨ statusCode ≥ 300)
  | _ => true

/-- The engine's record on a machine it has connected: the finalizer is present, no
deletion is requested, processed is `true`, and the last-status and connection-id
annotations are `last` and `id`. -/
def Connected (vm : VirtualMachine) (id last : String) : Prop :=
  ContainsFinalizer vm VMWatcherFinalizer = true ∧ vm.DeletionTimestamp = none ∧
  lookup vm.Annotations ProcessedAnnotation = some "true" ∧
  lookup vm.Annotations LastStatusAnnotation = some last ∧
  lookup vm.Annotations GuacamoleConnectionIDAnnotation = some id

/-- An external change of the stored machine's printable status. -/
def setStatus (status : String) (w : World) : World :=
  { w with vm := w.vm.map (fun vm => { vm with PrintableStatus := status }) }

/-- A deletion request: the store sets the deletion timestamp of the stored machine. -/
def requestDeletion (t : Nat) (w : World) : World :=
  { w with vm := w.vm.map (fun vm => { vm with DeletionTimestamp := some t }) }

/-- The delivery of one notification: `Reconcile` runs, and runs once more when it asks
for an immediate requeue. -/
def deliver (toLower : String → String) (r : VirtualMachineReconciler) (env env' : Env)
    (w : World) : World :=
  match Reconcile toLower r env w with
  | ((res, _), w') => if res.Requeue then (Reconcile toLower r env' w').2 else w'

/-- The observed sequence Create, status Running, status Stopped, status Running,
deletion requested, each change followed by the delivery of its notification. -/
def lifecycle (toLower : String → String) (r : VirtualMachineReconciler)
    (e1 e2 e3 e4 e5 e6 : Env) (t : Nat) (w : World) : World :=
  let w := deliver toLower r e1 e2 w
  let w := (Reconcile toLower r e3 (setStatus VirtualMachineStatusRunning w)).2
  let w := (Reconcile toLower r e4 (setStatus VirtualMachineStatusStopped w)).2
  let w := (Reconcile toLower r e5 (setStatus VirtualMachineStatusRunning w)).2
  (Reconcile toLower r e6 (requestDeletion t w)).2

/-! ## Sample inputs -/

/-- ASCII lower-casing, a sample of `strings.ToLower`. -/
def asciiLower (s : String) : String := ⟨s.data.map Char.toLower⟩

def sampleReconciler : VirtualMachineReconciler :=
  { GuacamoleBaseURL := "https://guacamole.example.com"
    GuacamoleUsername := "guacadmin"
    GuacamolePassword := "secret" }

/-- An invocation in which every call succeeds, there is no running instance and the
gateway names the new connection `42`. -/
def sampleEnv : Env :=
  { getVM := none
    getVMI := .error .notFound
    listServices := .ok []
    storeUpdate := none
    auth := .response 200 (some ⟨"token", "guacadmin", "postgresql", ["postgresql"]⟩)
    create := .response 200 (some ⟨"42", "ROOT", "default-vm1", "rdp", none, none⟩)
    update := .response 204 none
    delete := .response 204 none }

/-- A running virtual machine that carries the finalizer and no annotation. -/
def sampleVM : VirtualMachine :=
  { Namespace := "default"
    Name := "vm1"
    Labels := none
    Annotations := none
    Finalizers := [VMWatcherFinalizer]
    DeletionTimestamp := none
    Generation := 1
    PrintableStatus := "Running" }

/-- A service that selects on the key `tier` with the empty value. -/
def tierService : Service :=
  { Namespace := "default", Name := "web", Selector := some [("tier", "")] }

/-- A service that selects `app=web`. -/
def webService : Service :=
  { Namespace := "default", Name := "web", Selector := some [("app", "web")] }

/-- An invocation in which the running instance exists without any address and the
namespace holds `tierService`. -/
def tierEnv : Env :=
  { sampleEnv with getVMI := .ok ⟨[]⟩, listServices := .ok [tierService] }

/-- An invocation in which the running instance exists without any address and the
namespace holds `webService`. -/
def webEnv : Env :=
  { sampleEnv with getVMI := .ok ⟨[⟨""⟩]⟩, listServices := .ok [webService] }

/-- An invocation without running instance in which the namespace holds `webService`. -/
def absentEnv : Env :=
  { sampleEnv with listServices := .ok [webService] }

/-- The sample machine with the protocol override `VNC` and no port override. -/
def vncVM : VirtualMachine :=
  { sampleVM with
    Annotations := some [("vm-watcher.setofangdar.polito.it/protocol", "VNC")] }

/-- The sample machine labelled `app=web`. -/
def webVM : VirtualMachine :=
  { sampleVM with Labels := some [("app", "web")] }

/-- The sample machine, processed while running with the connection `42`, now stopped. -/
def stoppedVM : VirtualMachine :=
  { sampleVM with
    PrintableStatus := "Stopped"
    Annotations := some
      [( ProcessedAnnotation, "true"), ( LastStatusAnnotation, "Running"),
       ( GuacamoleConnectionIDAnnotation, "42"),
       ("vm-watcher.setofangdar.polito.it/protocol", "vnc")] }

/-- An invocation in which the gateway answers the create request with status 500. -/
def createFailsEnv : Env :=
  { sampleEnv with create := .response 500 none }

/-- The store holding `vm`, nothing sent to the gateway and nothing written yet. -/
def initialWorld (vm : VirtualMachine) : World :=
  { vm := some vm, calls := [], updates := [] }

/-- A freshly created machine: starting, no annotation, no finalizer. -/
def freshVM : VirtualMachine :=
  { sampleVM with Finalizers := [], PrintableStatus := "Starting" }

/-- The sample machine before the finalizer is added: running and unprocessed. -/
def newRunningVM : VirtualMachine :=
  { sampleVM with Finalizers := [] }

/-- The store without any resource under the key, nothing sent and nothing written. -/
def emptyWorld : World :=
  { vm := none, calls := [], updates := [] }

/-- The sample machine with the protocol override `ssh` and all four credential tags. -/
def sshVM : VirtualMachine :=
  { sampleVM with
    Annotations := some
      [("vm-watcher.setofangdar.polito.it/protocol", "ssh"),
       ("vm-watcher.setofangdar.polito.it/username", "root"),
       ("vm-watcher.setofangdar.polito.it/password", "hunter2"),
       ("vm-watcher.setofangdar.polito.it/domain", "CORP"),
       ("vm-watcher.setofangdar.polito.it/private-key", "KEY")] }

/-- An invocation in which every call succeeds and the gateway answers the create request
with status 200 and a body whose identifier is empty. -/
def emptyIdEnv : Env :=
  { sampleEnv with
    create := .response 200 (some ⟨"", "ROOT", "default-vm1", "rdp", none, none⟩) }

/-! ## String maps: reading after writing -/

theorem StrMap.find?_insert_self (m : StrMap) (k v : String) :
    (m.insert k v).find? k = some v := by
  induction m with
  | nil => simp [StrMap.insert, StrMap.find?]
  | cons e m ih =>
    obtain ⟨k', v'⟩ := e
    by_cases h : k' = k
    · simp [StrMap.insert, StrMap.find?, h]
    · simp [StrMap.insert, StrMap.find?, h, ih]

theorem StrMap.find?_insert_of_ne (m : StrMap) (k v k' : String) (h : k ≠ k') :
    (m.insert k v).find? k' = m.find? k' := by
  induction m with
  | nil => simp [StrMap.insert, StrMap.find?, h]
  | cons e m ih =>
    obtain ⟨k₀, v₀⟩ := e
    by_cases h₀ : k₀ = k
    · subst h₀
      simp [StrMap.insert, StrMap.find?, h]
    · by_cases h₁ : k₀ = k'
      · subst h₁
        simp [StrMap.insert, StrMap.find?, h₀]
      · simp [StrMap.insert, StrMap.find?, h₀, h₁, ih]

theorem find?_copyAnnotation_of_ne (annotations : Option StrMap) (tag key k : String)
    (parameters : StrMap) (h : key ≠ k) :
    ( copyAnnotation annotations tag key parameters).find? k = parameters.find? k := by
  unfold copyAnnotation
  cases lookup annotations tag with
  | none => rfl
  | some v => exact StrMap.find?_insert_of_ne parameters key v k h

theorem find?_fillEmptyParams_of_not_mem (params : List String) (k : String)
    (h : k ∉ params) (parameters : StrMap) :
    (fillEmptyParams params parameters).find? k = parameters.find? k := by
  induction params generalizing parameters with
  | nil => rfl
  | cons p rest ih =>
    have hp : p ≠ k := fun e => h (by simp [e])
    have hrest : k ∉ rest := fun e => h (by simp [e])
    unfold fillEmptyParams
    cases parameters.find? p with
    | some _ => exact ih hrest parameters
    | none =>
      show (fillEmptyParams rest (parameters.insert p "")).find? k = _
      rw [ih hrest, StrMap.find?_insert_of_ne _ _ _ _ hp]

theorem find?_port_protocolParameters (protocol : String) (annotations : Option StrMap)
    (parameters : StrMap) :
    (protocolParameters protocol annotations parameters).find? "port"
      = parameters.find? "port" := by
  unfold protocolParameters
  split_ifs <;>
    simp [find?_copyAnnotation_of_ne, StrMap.find?_insert_of_ne]

theorem defaultPort_eq_specPort (p q : String) : defaultPort p q = specPort p q := by
  unfold defaultPort specPort
  by_cases h1 : p = "vnc"
  · subst h1; by_cases hq : q = "3389" <;> simp [hq]
  · by_cases h2 : p = "rdp"
    · subst h2; by_cases hq : q = "5900" <;> simp [hq]
    · by_cases h3 : p = "ssh"
      · subst h3; simp
      · simp [h1, h2, h3]

/-! ## Connection profile builder: the port -/

/-- C3: whenever the hostname resolves, `buildGuacamoleConnection` builds a profile whose
`port` parameter is the specified port rule applied to the lower-cased protocol (override
or `rdp`) and the starting port (override or `3389`). In particular an override that is
neither `3389` nor `5900` is kept for any protocol, `rdp` with override `5900` gives
`3389`, `vnc` without override gives `5900`, and `ssh` with override `3389` gives `22`. -/
theorem buildGuacamoleConnection_port (toLower : String → String) (env : Env)
    (vm : VirtualMachine) (hostname : String) (h : getVMHostname env vm = .ok hostname) :
    ∃ conn, buildGuacamoleConnection toLower env vm = .ok conn ∧
      conn.Parameters.find? "port"
        = some (specPort (specProtocol toLower vm.Annotations)
            (specStartPort vm.Annotations)) ∧
      (∀ q, lookup vm.Annotations "vm-watcher.setofangdar.polito.it/port" = some q →
        q ≠ "3389" → q ≠ "5900" → conn.Parameters.find? "port" = some q) ∧
      (specProtocol toLower vm.Annotations = "rdp" →
        lookup vm.Annotations "vm-watcher.setofangdar.polito.it/port" = some "5900" →
        conn.Parameters.find? "port" = some "3389") ∧
      (specProtocol toLower vm.Annotations = "vnc" →
        lookup vm.Annotations "vm-watcher.setofangdar.polito.it/port" = none →
        conn.Parameters.find? "port" = some "5900") ∧
      (specProtocol toLower vm.Annotations = "ssh" →
        lookup vm.Annotations "vm-watcher.setofangdar.polito.it/port" = some "3389" →
        conn.Parameters.find? "port" = some "22") := by
  have hport : ∀ conn, buildGuacamoleConnection toLower env vm = .ok conn →
      conn.Parameters.find? "port"
        = some (specPort (specProtocol toLower vm.Annotations)
            (specStartPort vm.Annotations)) := by
    intro conn hc
    simp only [buildGuacamoleConnection, h] at hc
    injection hc with hc
    subst hc
    have hmem : "port" ∉ emptyParams := by decide
    have hne : "hostname" ≠ "port" := by decide
    simp only []
    rw [find?_fillEmptyParams_of_not_mem _ _ hmem, find?_port_protocolParameters,
      StrMap.find?_insert_self, defaultPort_eq_specPort]
    simp only [specProtocol, specStartPort]
    cases lookup vm.Annotations "vm-watcher.setofangdar.polito.it/port" <;> rfl
  have hex : ∃ conn, buildGuacamoleConnection toLower env vm = .ok conn := by
    simp only [buildGuacamoleConnection, h]
    exact ⟨_, rfl⟩
  obtain ⟨conn, hc⟩ := hex
  refine ⟨conn, hc, hport conn hc, ?_, ?_, ?_, ?_⟩
  · intro q hq h1 h2
    rw [hport conn hc]
    simp [specStartPort, hq, specPort, h1, h2]
  · intro hp hq
    rw [hport conn hc, hp]
    simp [specStartPort, hq, specPort]
  · intro hp hq
    rw [hport conn hc, hp]
    simp [specStartPort, hq, specPort]
  · intro hp hq
    rw [hport conn hc, hp]
    simp [specStartPort, hq, specPort]

/-- The port theorem applies to the machine with the override `VNC`: the hostname resolves
and the profile is built. -/
theorem buildGuacamoleConnection_port_witness :
    getVMHostname sampleEnv vncVM = .ok "vm1" ∧
    ∃ conn, buildGuacamoleConnection asciiLower sampleEnv vncVM = .ok conn ∧
      conn.Parameters.find? "port" = some "5900" :=
  ⟨rfl,
    match buildGuacamoleConnection_port asciiLower sampleEnv vncVM "vm1" rfl with
    | ⟨conn, hc, _, _, _, hvnc, _⟩ => ⟨conn, hc, hvnc (by decide) (by decide)⟩⟩

/-! ## Endpoint resolver -/

theorem firstIP_eq_none (ifaces : List VirtualMachineInstanceNetworkInterface)
    (h : ∀ iface ∈ ifaces, iface.IP = "") : firstIP ifaces = none := by
  induction ifaces with
  | nil => rfl
  | cons i rest ih =>
    have hi : i.IP = "" := h i (by simp)
    have hrest : ∀ iface ∈ rest, iface.IP = "" := fun x hx => h x (by simp [hx])
    simp [firstIP, hi, ih hrest]

theorem selectorMatches_iff (labels : Option StrMap) (selector : StrMap) :
    selectorMatches labels selector = true ↔ ∀ kv ∈ selector, index labels kv.1 = kv.2 := by
  induction selector with
  | nil => simp [selectorMatches]
  | cons e rest ih =>
    obtain ⟨k, v⟩ := e
    by_cases h : index labels k = v
    · simp [selectorMatches, h, ih]
    · simp [selectorMatches, h]

theorem strictSubsetMatch_iff (labels : Option StrMap) (selector : StrMap) :
    strictSubsetMatch labels selector = true
      ↔ ∀ kv ∈ selector, lookup labels kv.1 = some kv.2 := by
  simp [strictSubsetMatch]

/-- Where no selector entry pairs the empty value with a key missing from the labels, the
loop of the code decides the strict subset match. -/
theorem selectorMatches_eq_strictSubsetMatch (labels : Option StrMap) (selector : StrMap)
    (h : ∀ kv ∈ selector, kv.2 = "" → lookup labels kv.1 ≠ none) :
    selectorMatches labels selector = strictSubsetMatch labels selector := by
  rw [Bool.eq_iff_iff, selectorMatches_iff, strictSubsetMatch_iff]
  constructor
  · intro hc kv hkv
    have h1 := hc kv hkv
    have h2 := h kv hkv
    unfold index at h1
    cases hl : lookup labels kv.1 with
    | none =>
      rw [hl] at h1
      exact absurd hl (h2 (by simpa using h1.symm))
    | some v =>
      rw [hl] at h1
      simpa using h1
  · intro hs kv hkv
    simp [index, hs kv hkv]

theorem scanServices_eq_find? (vm : VirtualMachine) (services : List Service)
    (h : ∀ svc ∈ services, ∀ selector, svc.Selector = some selector →
      ∀ kv ∈ selector, kv.2 = "" → lookup vm.Labels kv.1 ≠ none) :
    scanServices vm services = (services.find? (serviceMatches vm)).map serviceDNS := by
  induction services with
  | nil => rfl
  | cons svc rest ih =>
    have hrest := ih (fun s hs => h s (by simp [hs]))
    cases hsel : svc.Selector with
    | none => simp [scanServices, serviceMatches, hsel, hrest, List.find?]
    | some selector =>
      have heq := selectorMatches_eq_strictSubsetMatch vm.Labels selector
        (h svc (by simp) selector hsel)
      cases hm : strictSubsetMatch vm.Labels selector with
      | true => simp [scanServices, serviceMatches, hsel, heq, hm, List.find?]
      | false => simp [scanServices, serviceMatches, hsel, heq, hm, hrest, List.find?]

/-- C4, as stated, fails: with no running instance and a service in the namespace whose
selector `app=web` is matched by the machine's labels, `getVMHostname` returns the
machine's name, not the address of the service. -/
theorem getVMHostname_absent_instance_ignores_services :
    absentEnv.getVMI = .error .notFound ∧
    absentEnv.listServices = .ok [webService] ∧
    serviceMatches webVM webService = true ∧
    getVMHostname absentEnv webVM = .ok "vm1" ∧
    getVMHostname absentEnv webVM ≠ .ok (serviceDNS webService) := by
  refine ⟨rfl, rfl, by decide, rfl, ?_⟩
  intro h
  injection h with h
  revert h
  decide

/-- C4, amended: when the running instance exists and none of its interfaces has an
address, and the services are listed, `getVMHostname` returns the address
`<service>.<namespace>.svc.cluster.local` of the first service whose selector is matched by
the machine's labels, and the machine's name when no service matches; this for service
lists in which no selector pairs the empty value with a key missing from the labels. -/
theorem getVMHostname_scans_services (env : Env) (vm : VirtualMachine)
    (vmi : VirtualMachineInstance) (services : List Service)
    (hvmi : env.getVMI = .ok vmi)
    (hip : ∀ iface ∈ vmi.Interfaces, iface.IP = "")
    (hlist : env.listServices = .ok services)
    (hval : ∀ svc ∈ services, ∀ selector, svc.Selector = some selector →
      ∀ kv ∈ selector, kv.2 = "" → lookup vm.Labels kv.1 ≠ none) :
    getVMHostname env vm =
      .ok (match services.find? (serviceMatches vm) with
        | some svc => svc.Name ++ "." ++ svc.Namespace ++ ".svc.cluster.local"
        | none => vm.Name) := by
  unfold getVMHostname
  rw [hvmi]
  simp only [firstIP_eq_none _ hip, hlist, scanServices_eq_find? vm services hval]
  cases services.find? (serviceMatches vm) with
  | none => rfl
  | some svc => rfl

/-- The amended resolver theorem applies to the labelled machine and `webService`. -/
theorem getVMHostname_scans_services_witness :
    getVMHostname webEnv webVM = .ok "web.default.svc.cluster.local" :=
  getVMHostname_scans_services webEnv webVM ⟨[⟨""⟩]⟩ [webService] rfl (by decide) rfl
    (by decide)

/-- C5, the code at the failing input: the machine has no label at all, the selector of
`tierService` has the key `tier`, and `getVMHostname` still returns the address of that
service, because the read of the missing key gives the empty string, the selector's
value. -/
theorem getVMHostname_accepts_missing_selector_key :
    lookup sampleVM.Labels "tier" = none ∧
    tierService.Selector = some [("tier", "")] ∧
    strictSubsetMatch sampleVM.Labels [("tier", "")] = false ∧
    selectorMatches sampleVM.Labels [("tier", "")] = true ∧
    getVMHostname tierEnv sampleVM = .ok "web.default.svc.cluster.local" := by
  refine ⟨rfl, rfl, by decide, by decide, rfl⟩

/-- C6: when no running instance exists, `getVMHostname` succeeds and returns exactly the
machine's name, whatever the services of the namespace are, so also when none of them has
a selector matched by the machine's labels. -/
theorem getVMHostname_fallback (env : Env) (vm : VirtualMachine)
    (hvmi : env.getVMI = .error .notFound)
    (_hnone : ∀ services, env.listServices = .ok services →
      ∀ svc ∈ services, serviceMatches vm svc = false) :
    getVMHostname env vm = .ok vm.Name := by
  unfold getVMHostname
  rw [hvmi]
  rfl

/-- The fallback theorem applies to the sample machine in a namespace without services. -/
theorem getVMHostname_fallback_witness : getVMHostname sampleEnv sampleVM = .ok "vm1" :=
  getVMHostname_fallback sampleEnv sampleVM rfl (by
    intro services h svc hsvc
    have h' : services = [] := by
      have h2 : (Except.ok [] : Except Error (List Service)) = .ok services := h
      injection h2 with h2
      exact h2.symm
    subst h'
    simp at hsvc)

/-! ## Reconciliation engine: the branches of `Reconcile` -/

theorem Reconcile_deleting (toLower : String → String) (r : VirtualMachineReconciler)
    (env : Env) (w : World) (vm : VirtualMachine)
    (hget : env.getVM = none) (hw : w.vm = some vm) (hdel : vm.DeletionTimestamp ≠ none) :
    Reconcile toLower r env w = handleDeletion r env vm w := by
  simp [Reconcile, Get, hget, hw, hdel]

theorem Reconcile_adds_finalizer (toLower : String → String) (r : VirtualMachineReconciler)
    (env : Env) (w : World) (vm : VirtualMachine)
    (hget : env.getVM = none) (hw : w.vm = some vm) (hdel : vm.DeletionTimestamp = none)
    (hfin : ContainsFinalizer vm VMWatcherFinalizer = false) :
    Reconcile toLower r env w =
      match Update env (AddFinalizer vm VMWatcherFinalizer) w with
      | (some err, w) => (({}, some err), w)
      | (none, w) => (({ Requeue := true }, none), w) := by
  simp [Reconcile, Get, hget, hw, hdel, hfin]

theorem Reconcile_waits (toLower : String → String) (r : VirtualMachineReconciler)
    (env : Env) (w : World) (vm : VirtualMachine)
    (hget : env.getVM = none) (hw : w.vm = some vm) (hdel : vm.DeletionTimestamp = none)
    (hfin : ContainsFinalizer vm VMWatcherFinalizer = true)
    (hnew : index vm.Annotations ProcessedAnnotation ≠ "true")
    (hrun : vm.PrintableStatus ≠ VirtualMachineStatusRunning) :
    Reconcile toLower r env w = (({ RequeueAfter := 30 * Second }, none), w) := by
  simp [Reconcile, Get, hget, hw, hdel, hfin, hnew, hrun]

theorem Reconcile_creates (toLower : String → String) (r : VirtualMachineReconciler)
    (env : Env) (w : World) (vm : VirtualMachine)
    (hget : env.getVM = none) (hw : w.vm = some vm) (hdel : vm.DeletionTimestamp = none)
    (hfin : ContainsFinalizer vm VMWatcherFinalizer = true)
    (hnew : index vm.Annotations ProcessedAnnotation ≠ "true")
    (hrun : vm.PrintableStatus = VirtualMachineStatusRunning) :
    Reconcile toLower r env w =
      match createGuacamoleConnection toLower r env vm w.calls with
      | (.error _, log) =>
        (({ RequeueAfter := DefaultRetryDelay }, none), { w with calls := log })
      | (.ok connectionID, log) =>
        match Update env
          { vm with
            Annotations := some
              ((((allocated vm.Annotations).insert ProcessedAnnotation "true").insert
                LastStatusAnnotation vm.PrintableStatus).insert
                GuacamoleConnectionIDAnnotation connectionID) }
          { w with calls := log } with
        | (some err, w) => (({}, some err), w)
        | (none, w) => (({}, none), w) := by
  simp [Reconcile, Get, hget, hw, hdel, hfin, hnew, hrun]

theorem Reconcile_status_changed (toLower : String → String)
    (r : VirtualMachineReconciler) (env : Env) (w : World) (vm : VirtualMachine)
    (hget : env.getVM = none) (hw : w.vm = some vm) (hdel : vm.DeletionTimestamp = none)
    (hfin : ContainsFinalizer vm VMWatcherFinalizer = true)
    (hproc : index vm.Annotations ProcessedAnnotation = "true")
    (hlast : index vm.Annotations LastStatusAnnotation ≠ "")
    (hchg : index vm.Annotations LastStatusAnnotation ≠ vm.PrintableStatus) :
    Reconcile toLower r env w =
      match Update env
        { vm with
          Annotations := some
            ((allocated vm.Annotations).insert LastStatusAnnotation vm.PrintableStatus) }
        { w with
          calls :=
            if vm.PrintableStatus = VirtualMachineStatusStopped ∧
                index vm.Annotations GuacamoleConnectionIDAnnotation ≠ "" then w.calls
            else if vm.PrintableStatus = VirtualMachineStatusRunning ∧
                index vm.Annotations GuacamoleConnectionIDAnnotation ≠ "" then
              (updateGuacamoleConnection toLower r env vm
                (index vm.Annotations GuacamoleConnectionIDAnnotation) w.calls).2
            else w.calls } with
      | (some err, w) => (({}, some err), w)
      | (none, w) => (({}, none), w) := by
  simp [Reconcile, Get, hget, hw, hdel, hfin, hproc, hlast, hchg]

theorem Reconcile_unchanged (toLower : String → String) (r : VirtualMachineReconciler)
    (env : Env) (w : World) (vm : VirtualMachine)
    (hget : env.getVM = none) (hw : w.vm = some vm) (hdel : vm.DeletionTimestamp = none)
    (hfin : ContainsFinalizer vm VMWatcherFinalizer = true)
    (hproc : index vm.Annotations ProcessedAnnotation = "true")
    (hsame : index vm.Annotations LastStatusAnnotation = vm.PrintableStatus) :
    Reconcile toLower r env w = (({}, none), w) := by
  simp [Reconcile, Get, hget, hw, hdel, hfin, hproc, hsame]

/-! ## Annotations after a write -/

theorem lookup_allocated_insert (a : Option StrMap) (k v k' : String) :
    lookup (some ((allocated a).insert k v)) k'
      = if k = k' then some v else lookup a k' := by
  by_cases h : k = k'
  · subst h
    simp [lookup, StrMap.find?_insert_self]
  · cases a with
    | none => simp [lookup, allocated, StrMap.find?_insert_of_ne _ _ _ _ h, h, StrMap.find?]
    | some m => simp [lookup, allocated, StrMap.find?_insert_of_ne _ _ _ _ h, h]

theorem lookup_insert (m : StrMap) (k v k' : String) :
    lookup (some (m.insert k v)) k' = if k = k' then some v else lookup (some m) k' :=
  lookup_allocated_insert (some m) k v k'

theorem index_of_lookup (a : Option StrMap) (k v : String) (h : lookup a k = some v) :
    index a k = v := by
  simp [index, h]

theorem index_of_lookup_none (a : Option StrMap) (k : String) (h : lookup a k = none) :
    index a k = "" := by
  simp [index, h]

theorem ContainsFinalizer_RemoveFinalizer (vm : VirtualMachine) (f : String) :
    ContainsFinalizer (RemoveFinalizer vm f) f = false := by
  simp [ContainsFinalizer, RemoveFinalizer]

theorem ContainsFinalizer_AddFinalizer (vm : VirtualMachine) (f : String) :
    ContainsFinalizer (AddFinalizer vm f) f = true := by
  unfold AddFinalizer
  by_cases h : ContainsFinalizer vm f = true
  · simp [h]
  · simp [h]
    simp [ContainsFinalizer]

/-! ## Reconciliation engine: deletion -/

/-- C10: for a processed machine (processed is `true`, finalizer present, no deletion
requested) whose last-status annotation is `Running` and whose observed status is
`Stopped`, `Reconcile` sends nothing to the gateway, and the object it hands to the
store's `Update` (and that the store holds when the write succeeds) differs from the
snapshot only in the last-status annotation, which is `Stopped`: every other annotation,
the finalizers and every other field are unchanged. -/
theorem Reconcile_stop_records_status_only (toLower : String → String)
    (r : VirtualMachineReconciler) (env : Env) (w : World) (vm : VirtualMachine)
    (hget : env.getVM = none) (hw : w.vm = some vm) (hdel : vm.DeletionTimestamp = none)
    (hfin : ContainsFinalizer vm VMWatcherFinalizer = true)
    (hproc : lookup vm.Annotations ProcessedAnnotation = some "true")
    (hlast : lookup vm.Annotations LastStatusAnnotation = some VirtualMachineStatusRunning)
    (hstop : vm.PrintableStatus = VirtualMachineStatusStopped) :
    (Reconcile toLower r env w).2.calls = w.calls ∧
    ∃ vm', (Reconcile toLower r env w).2.updates = w.updates ++ [vm'] ∧
      (env.storeUpdate = none → (Reconcile toLower r env w).2.vm = some vm') ∧
      lookup vm'.Annotations LastStatusAnnotation = some VirtualMachineStatusStopped ∧
      (∀ k, k ≠ LastStatusAnnotation →
        lookup vm'.Annotations k = lookup vm.Annotations k) ∧
      vm'.Finalizers = vm.Finalizers ∧ vm'.Namespace = vm.Namespace ∧
      vm'.Name = vm.Name ∧ vm'.Labels = vm.Labels ∧
      vm'.DeletionTimestamp = vm.DeletionTimestamp ∧ vm'.Generation = vm.Generation ∧
      vm'.PrintableStatus = vm.PrintableStatus := by
  have hp := index_of_lookup _ _ _ hproc
  have hl := index_of_lookup _ _ _ hlast
  have h1 : index vm.Annotations LastStatusAnnotation ≠ "" := by
    rw [hl]; decide
  have h2 : index vm.Annotations LastStatusAnnotation ≠ vm.PrintableStatus := by
    rw [hl, hstop]; decide
  have hnr : ¬ (VirtualMachineStatusStopped = VirtualMachineStatusRunning) := by decide
  rw [Reconcile_status_changed toLower r env w vm hget hw hdel hfin hp h1 h2]
  refine ⟨?_, { vm with
    Annotations := some
      ((allocated vm.Annotations).insert LastStatusAnnotation vm.PrintableStatus) },
    ?_, ?_, ?_, ?_, rfl, rfl, rfl, rfl, rfl, rfl, rfl⟩
  · cases hu : env.storeUpdate <;> simp [Update, hu, hstop, hnr]
  · cases hu : env.storeUpdate <;> simp [Update, hu]
  · intro hu
    simp [Update, hu]
  · simp [lookup_allocated_insert, hstop]
  · intro k hk
    simp [lookup_allocated_insert, Ne.symm hk]

/-- The stop theorem applies to the stopped sample machine: nothing is sent to the
gateway. -/
theorem Reconcile_stop_records_status_only_witness :
    (Reconcile asciiLower sampleReconciler sampleEnv (initialWorld stoppedVM)).2.calls = [] :=
  (Reconcile_stop_records_status_only asciiLower sampleReconciler sampleEnv
    (initialWorld stoppedVM) stoppedVM rfl rfl rfl (by decide) (by decide) (by decide)
    rfl).1

/-! ## Reconciliation engine: creation -/

theorem createGuacamoleConnection_fails (toLower : String → String)
    (r : VirtualMachineReconciler) (env : Env) (vm : VirtualMachine)
    (log : List GatewayCall)
    (hfail : (∃ e, (authenticateWithGuacamole r env log).1 = .error e) ∨
      (∃ e, buildGuacamoleConnection toLower env vm = .error e) ∨
      createExchangeFails env.create = true) :
    ∃ e log', createGuacamoleConnection toLower r env vm log = (.error e, log') := by
  unfold createGuacamoleConnection
  rcases hA : authenticateWithGuacamole r env log with ⟨res, log₁⟩
  cases res with
  | error e => exact ⟨_, _, rfl⟩
  | ok authResp =>
    cases hB : buildGuacamoleConnection toLower env vm with
    | error e => exact ⟨_, _, rfl⟩
    | ok connection =>
      rcases hfail with ⟨e, he⟩ | ⟨e, he⟩ | hc
      · rw [hA] at he
        cases he
      · rw [hB] at he
        cases he
      · cases hC : env.create with
        | requestError => exact ⟨_, _, rfl⟩
        | transportError => exact ⟨_, _, rfl⟩
        | response statusCode body =>
          rw [hC] at hc
          cases body with
          | none =>
            by_cases hs : statusCode < 200 ∨ statusCode ≥ 300
            · simp only [hs, if_true]
              exact ⟨_, _, rfl⟩
            · simp only [hs, if_false]
              exact ⟨_, _, rfl⟩
          | some c =>
            have hs : statusCode < 200 ∨ statusCode ≥ 300 := by
              simpa [createExchangeFails] using hc
            simp only [hs, if_true]
            exact ⟨_, _, rfl⟩

/-- C7: for an unprocessed running machine that carries the finalizer and is not being
deleted, if the authentication fails, or the profile cannot be built, or the create
exchange fails, then `Reconcile` hands nothing to the store's `Update`, leaves the stored
machine as it was, returns no error and asks for a requeue after `DefaultRetryDelay`,
which is two minutes. -/
theorem Reconcile_creation_failure_is_atomic (toLower : String → String)
    (r : VirtualMachineReconciler) (env : Env) (w : World) (vm : VirtualMachine)
    (hget : env.getVM = none) (hw : w.vm = some vm) (hdel : vm.DeletionTimestamp = none)
    (hfin : ContainsFinalizer vm VMWatcherFinalizer = true)
    (hnew : index vm.Annotations ProcessedAnnotation ≠ "true")
    (hrun : vm.PrintableStatus = VirtualMachineStatusRunning)
    (hfail : (∃ e, (authenticateWithGuacamole r env w.calls).1 = .error e) ∨
      (∃ e, buildGuacamoleConnection toLower env vm = .error e) ∨
      createExchangeFails env.create = true) :
    (Reconcile toLower r env w).1
        = ({ Requeue := false, RequeueAfter := DefaultRetryDelay }, none) ∧
    (Reconcile toLower r env w).2.updates = w.updates ∧
    (Reconcile toLower r env w).2.vm = some vm ∧
    DefaultRetryDelay = 2 * (60 * 1000000000) := by
  obtain ⟨e, log', hc⟩ := createGuacamoleConnection_fails toLower r env vm w.calls hfail
  rw [Reconcile_creates toLower r env w vm hget hw hdel hfin hnew hrun, hc]
  exact ⟨rfl, rfl, hw, rfl⟩

/-- The atomicity theorem applies when the gateway answers the create request with status
500: the machine stays unannotated and a requeue is asked after two minutes. -/
theorem Reconcile_creation_failure_is_atomic_witness :
    (Reconcile asciiLower sampleReconciler createFailsEnv (initialWorld sampleVM)).1
        = ({ Requeue := false, RequeueAfter := 120000000000 }, none) ∧
    (Reconcile asciiLower sampleReconciler createFailsEnv (initialWorld sampleVM)).2.updates
        = [] ∧
    (Reconcile asciiLower sampleReconciler createFailsEnv (initialWorld sampleVM)).2.vm
        = some sampleVM :=
  have h := Reconcile_creation_failure_is_atomic asciiLower sampleReconciler createFailsEnv
    (initialWorld sampleVM) sampleVM rfl rfl rfl (by decide) (by decide) rfl
    (Or.inr (Or.inr rfl))
  ⟨h.1, h.2.1, h.2.2.1⟩

/-! ## Reconciliation engine: the steps of a run in which every call succeeds -/

theorem getVMHostname_ok (env : Env) (vm : VirtualMachine)
    (h : ∀ e, env.getVMI = .error e → e = .notFound) :
    ∃ hostname, getVMHostname env vm = .ok hostname := by
  unfold getVMHostname
  cases hv : env.getVMI with
  | error e =>
    rw [h e hv]
    exact ⟨_, rfl⟩
  | ok vmi =>
    simp only []
    cases firstIP vmi.Interfaces with
    | some ip => exact ⟨_, rfl⟩
    | none =>
      simp only []
      cases env.listServices with
      | error e => exact ⟨_, rfl⟩
      | ok services =>
        simp only []
        cases scanServices vm services with
        | some host => exact ⟨_, rfl⟩
        | none => exact ⟨_, rfl⟩

theorem buildGuacamoleConnection_ok (toLower : String → String) (env : Env)
    (vm : VirtualMachine) (h : ∀ e, env.getVMI = .error e → e = .notFound) :
    ∃ conn, buildGuacamoleConnection toLower env vm = .ok conn := by
  obtain ⟨hostname, hh⟩ := getVMHostname_ok env vm h
  simp only [buildGuacamoleConnection, hh]
  exact ⟨_, rfl⟩

theorem authenticateWithGuacamole_ok (r : VirtualMachineReconciler) (env : Env)
    (log : List GatewayCall) (a : GuacamoleAuthResponse)
    (hurl : r.GuacamoleBaseURL ≠ "") (ha : env.auth = .response 200 (some a)) :
    authenticateWithGuacamole r env log
      = (.ok a, log ++ [.authenticate r.GuacamoleUsername r.GuacamolePassword]) := by
  simp [authenticateWithGuacamole, hurl, ha]

theorem createGuacamoleConnection_ok (toLower : String → String)
    (r : VirtualMachineReconciler) (env : Env) (vm : VirtualMachine)
    (log : List GatewayCall) (hurl : r.GuacamoleBaseURL ≠ "") (hs : env.Succeeds) :
    ∃ (a : GuacamoleAuthResponse) (conn : GuacamoleConnection),
      createGuacamoleConnection toLower r env vm log
      = (.ok (createdId env),
          log ++ [.authenticate r.GuacamoleUsername r.GuacamolePassword,
            .createConnection a.DataSource a.AuthToken conn]) := by
  obtain ⟨_, _, hvmi, ⟨a, ha⟩, ⟨s, c, hc, hs1, hs2⟩, _, _⟩ := hs
  obtain ⟨conn, hb⟩ := buildGuacamoleConnection_ok toLower env vm hvmi
  refine ⟨a, conn, ?_⟩
  have hns : ¬ (s < 200 ∨ s ≥ 300) := by omega
  simp [createGuacamoleConnection, authenticateWithGuacamole_ok r env log a hurl ha, hb, hc,
    hns, createdId]

theorem updateGuacamoleConnection_ok (toLower : String → String)
    (r : VirtualMachineReconciler) (env : Env) (vm : VirtualMachine) (id : String)
    (log : List GatewayCall) (hurl : r.GuacamoleBaseURL ≠ "") (hs : env.Succeeds) :
    ∃ (a : GuacamoleAuthResponse) (conn : GuacamoleConnection),
      updateGuacamoleConnection toLower r env vm id log
      = (none,
          log ++ [.authenticate r.GuacamoleUsername r.GuacamolePassword,
            .updateConnection a.DataSource a.AuthToken id conn]) := by
  obtain ⟨_, _, hvmi, ⟨a, ha⟩, _, ⟨s, b, hc, hs1, hs2⟩, _⟩ := hs
  obtain ⟨conn, hb⟩ := buildGuacamoleConnection_ok toLower env vm hvmi
  refine ⟨a, conn, ?_⟩
  have hns : ¬ (s < 200 ∨ s ≥ 300) := by omega
  simp [updateGuacamoleConnection, authenticateWithGuacamole_ok r env log a hurl ha, hb, hc,
    hns]

theorem handleVMDeletion_ok (r : VirtualMachineReconciler) (env : Env) (id : String)
    (log : List GatewayCall) (hurl : r.GuacamoleBaseURL ≠ "") (hs : env.Succeeds)
    (hid : id ≠ "") :
    ∃ (a : GuacamoleAuthResponse), handleVMDeletion r env id log
      = (none,
          log ++ [.authenticate r.GuacamoleUsername r.GuacamolePassword,
            .deleteConnection a.DataSource a.AuthToken id]) := by
  obtain ⟨_, _, _, ⟨a, ha⟩, _, _, ⟨s, b, hc, hs1, hs2⟩⟩ := hs
  refine ⟨a, ?_⟩
  have hns : ¬ (s < 200 ∨ s ≥ 300) := by omega
  simp [handleVMDeletion, authenticateWithGuacamole_ok r env log a hurl ha, hc, hns, hid]

theorem step_add_finalizer (toLower : String → String) (r : VirtualMachineReconciler)
    (env : Env) (w : World) (vm : VirtualMachine) (hs : env.Succeeds)
    (hw : w.vm = some vm) (hdel : vm.DeletionTimestamp = none)
    (hfin : ContainsFinalizer vm VMWatcherFinalizer = false) :
    (Reconcile toLower r env w).1.1.Requeue = true ∧
    (Reconcile toLower r env w).2.vm = some (AddFinalizer vm VMWatcherFinalizer) ∧
    (Reconcile toLower r env w).2.calls = w.calls := by
  rw [Reconcile_adds_finalizer toLower r env w vm hs.1 hw hdel hfin]
  simp [Update, hs.2.1]

theorem step_create (toLower : String → String) (r : VirtualMachineReconciler)
    (env : Env) (w : World) (vm : VirtualMachine)
    (hurl : r.GuacamoleBaseURL ≠ "") (hs : env.Succeeds)
    (hw : w.vm = some vm) (hdel : vm.DeletionTimestamp = none)
    (hfin : ContainsFinalizer vm VMWatcherFinalizer = true)
    (hnew : index vm.Annotations ProcessedAnnotation ≠ "true")
    (hrun : vm.PrintableStatus = VirtualMachineStatusRunning) :
    (Reconcile toLower r env w).1.1.Requeue = false ∧
    ∃ (vm' : VirtualMachine) (a : GuacamoleAuthResponse) (conn : GuacamoleConnection),
      (Reconcile toLower r env w).2.vm = some vm' ∧
      (Reconcile toLower r env w).2.calls
        = w.calls ++ [.authenticate r.GuacamoleUsername r.GuacamolePassword,
            .createConnection a.DataSource a.AuthToken conn] ∧
      Connected vm' (createdId env) VirtualMachineStatusRunning ∧
      vm'.PrintableStatus = vm.PrintableStatus := by
  obtain ⟨a, conn, hc⟩ := createGuacamoleConnection_ok toLower r env vm w.calls hurl hs
  rw [Reconcile_creates toLower r env w vm hs.1 hw hdel hfin hnew hrun, hc]
  have hPL : ProcessedAnnotation ≠ LastStatusAnnotation := by decide
  have hPC : ProcessedAnnotation ≠ GuacamoleConnectionIDAnnotation := by decide
  have hLC : LastStatusAnnotation ≠ GuacamoleConnectionIDAnnotation := by decide
  have hLP := hPL.symm
  have hCP := hPC.symm
  have hCL := hLC.symm
  refine ⟨by simp [Update, hs.2.1],
    { vm with
      Annotations := some
        ((((allocated vm.Annotations).insert ProcessedAnnotation "true").insert
          LastStatusAnnotation vm.PrintableStatus).insert
          GuacamoleConnectionIDAnnotation (createdId env)) },
    a, conn, by simp only [Update, hs.2.1], ?_, ?_, rfl⟩
  · simp [Update, hs.2.1]
  · refine ⟨?_, hdel, ?_, ?_, ?_⟩
    · simpa [ContainsFinalizer] using hfin
    · simp [lookup_insert, lookup_allocated_insert, hLP, hCP]
    · simp [lookup_insert, lookup_allocated_insert, hCL, hrun]
    · simp [lookup_insert]

theorem step_same (toLower : String → String) (r : VirtualMachineReconciler)
    (env : Env) (w : World) (vm : VirtualMachine) (id : String) (hs : env.Succeeds)
    (hw : w.vm = some vm) (hc : Connected vm id vm.PrintableStatus) :
    Reconcile toLower r env w = (({}, none), w) := by
  obtain ⟨hfin, hdel, hP, hL, _⟩ := hc
  exact Reconcile_unchanged toLower r env w vm hs.1 hw hdel hfin (index_of_lookup _ _ _ hP)
    (index_of_lookup _ _ _ hL)

theorem step_stop (toLower : String → String) (r : VirtualMachineReconciler)
    (env : Env) (w : World) (vm : VirtualMachine) (id : String) (hs : env.Succeeds)
    (hw : w.vm = some vm) (hc : Connected vm id VirtualMachineStatusRunning)
    (hstop : vm.PrintableStatus = VirtualMachineStatusStopped) :
    ∃ vm', (Reconcile toLower r env w).2.vm = some vm' ∧
      (Reconcile toLower r env w).2.calls = w.calls ∧
      Connected vm' id VirtualMachineStatusStopped ∧
      vm'.PrintableStatus = vm.PrintableStatus := by
  obtain ⟨hfin, hdel, hP, hL, hC⟩ := hc
  have hp := index_of_lookup _ _ _ hP
  have hl := index_of_lookup _ _ _ hL
  have h1 : index vm.Annotations LastStatusAnnotation ≠ "" := by
    rw [hl]; decide
  have h2 : index vm.Annotations LastStatusAnnotation ≠ vm.PrintableStatus := by
    rw [hl, hstop]; decide
  have hnr : ¬ (VirtualMachineStatusStopped = VirtualMachineStatusRunning) := by decide
  have hLP : LastStatusAnnotation ≠ ProcessedAnnotation := by decide
  have hLC : LastStatusAnnotation ≠ GuacamoleConnectionIDAnnotation := by decide
  rw [Reconcile_status_changed toLower r env w vm hs.1 hw hdel hfin hp h1 h2]
  refine ⟨
    { vm with
      Annotations := some
        ((allocated vm.Annotations).insert LastStatusAnnotation vm.PrintableStatus) },
    by simp only [Update, hs.2.1], ?_, ?_, rfl⟩
  · simp [Update, hs.2.1, hstop, hnr]
  · refine ⟨?_, hdel, ?_, ?_, ?_⟩
    · simpa [ContainsFinalizer] using hfin
    · simp [lookup_allocated_insert, hLP, hP]
    · simp [lookup_allocated_insert, hstop]
    · simp [lookup_allocated_insert, hLC, hC]

theorem step_restart (toLower : String → String) (r : VirtualMachineReconciler)
    (env : Env) (w : World) (vm : VirtualMachine) (id : String)
    (hurl : r.GuacamoleBaseURL ≠ "") (hs : env.Succeeds)
    (hw : w.vm = some vm) (hc : Connected vm id VirtualMachineStatusStopped)
    (hid : id ≠ "") (hrun : vm.PrintableStatus = VirtualMachineStatusRunning) :
    ∃ (vm' : VirtualMachine) (a : GuacamoleAuthResponse) (conn : GuacamoleConnection),
      (Reconcile toLower r env w).2.vm = some vm' ∧
      (Reconcile toLower r env w).2.calls
        = w.calls ++ [.authenticate r.GuacamoleUsername r.GuacamolePassword,
            .updateConnection a.DataSource a.AuthToken id conn] ∧
      Connected vm' id VirtualMachineStatusRunning ∧
      vm'.PrintableStatus = vm.PrintableStatus := by
  obtain ⟨hfin, hdel, hP, hL, hC⟩ := hc
  have hp := index_of_lookup _ _ _ hP
  have hl := index_of_lookup _ _ _ hL
  have hci := index_of_lookup _ _ _ hC
  have h1 : index vm.Annotations LastStatusAnnotation ≠ "" := by
    rw [hl]; decide
  have h2 : index vm.Annotations LastStatusAnnotation ≠ vm.PrintableStatus := by
    rw [hl, hrun]; decide
  have hnr : ¬ (VirtualMachineStatusRunning = VirtualMachineStatusStopped) := by decide
  have hLP : LastStatusAnnotation ≠ ProcessedAnnotation := by decide
  have hLC : LastStatusAnnotation ≠ GuacamoleConnectionIDAnnotation := by decide
  obtain ⟨a, conn, hu⟩ := updateGuacamoleConnection_ok toLower r env vm id w.calls hurl hs
  rw [Reconcile_status_changed toLower r env w vm hs.1 hw hdel hfin hp h1 h2]
  refine ⟨
    { vm with
      Annotations := some
        ((allocated vm.Annotations).insert LastStatusAnnotation vm.PrintableStatus) },
    a, conn, by simp only [Update, hs.2.1], ?_, ?_, rfl⟩
  · simp [Update, hs.2.1, hrun, hnr, hci, hid, hu]
  · refine ⟨?_, hdel, ?_, ?_, ?_⟩
    · simpa [ContainsFinalizer] using hfin
    · simp [lookup_allocated_insert, hLP, hP]
    · simp [lookup_allocated_insert, hrun]
    · simp [lookup_allocated_insert, hLC, hC]

theorem step_delete (toLower : String → String) (r : VirtualMachineReconciler)
    (env : Env) (w : World) (vm : VirtualMachine) (id : String)
    (hurl : r.GuacamoleBaseURL ≠ "") (hs : env.Succeeds)
    (hw : w.vm = some vm) (hdel : vm.DeletionTimestamp ≠ none)
    (hC : lookup vm.Annotations GuacamoleConnectionIDAnnotation = some id)
    (hid : id ≠ "") :
    ∃ (vm' : VirtualMachine) (a : GuacamoleAuthResponse),
      (Reconcile toLower r env w).2.vm = some vm' ∧
      (Reconcile toLower r env w).2.calls
        = w.calls ++ [.authenticate r.GuacamoleUsername r.GuacamolePassword,
            .deleteConnection a.DataSource a.AuthToken id] ∧
      VMWatcherFinalizer ∉ vm'.Finalizers ∧
      lookup vm'.Annotations GuacamoleConnectionIDAnnotation = some id := by
  obtain ⟨a, hd⟩ := handleVMDeletion_ok r env id w.calls hurl hs hid
  rw [Reconcile_deleting toLower r env w vm hs.1 hw hdel]
  refine ⟨RemoveFinalizer vm VMWatcherFinalizer, a, ?_, ?_, by simp [RemoveFinalizer], hC⟩
  · simp [handleDeletion, Update, hs.2.1]
  · simp [handleDeletion, Update, hs.2.1, index_of_lookup _ _ _ hC, hd]

theorem AddFinalizer_fields (vm : VirtualMachine) (f : String) :
    (AddFinalizer vm f).Annotations = vm.Annotations ∧
    (AddFinalizer vm f).DeletionTimestamp = vm.DeletionTimestamp ∧
    (AddFinalizer vm f).PrintableStatus = vm.PrintableStatus := by
  unfold AddFinalizer
  split <;> exact ⟨rfl, rfl, rfl⟩

theorem deliver_eq (toLower : String → String) (r : VirtualMachineReconciler)
    (env env' : Env) (w : World) :
    deliver toLower r env env' w =
      if (Reconcile toLower r env w).1.1.Requeue = true then
        (Reconcile toLower r env' (Reconcile toLower r env w).2).2
      else (Reconcile toLower r env w).2 := rfl

theorem setStatus_vm (status : String) (w : World) (vm : VirtualMachine)
    (hw : w.vm = some vm) :
    (setStatus status w).vm = some { vm with PrintableStatus := status } := by
  simp [setStatus, hw]

theorem sampleEnv_succeeds : sampleEnv.Succeeds := by
  refine ⟨rfl, rfl, ?_, ⟨_, rfl⟩, ⟨200, _, rfl, by decide, by decide⟩,
    ⟨204, _, rfl, by decide, by decide⟩, ⟨204, _, rfl, by decide, by decide⟩⟩
  intro e h
  have h' : (Except.error Error.notFound : Except Error VirtualMachineInstance)
      = .error e := h
  injection h' with h'
  exact h'.symm

/-- C1: for an unprocessed running machine that is not being deleted, with a configured
gateway and two invocations in which every store and gateway call succeeds, running
`Reconcile` twice in a row sends exactly one create request in total, and the stored
machine ends with processed `true` and the connection-id annotation equal to the identifier
the gateway returned to that create request (sent by the first invocation when the
machine carried the finalizer, by the second otherwise). -/
theorem Reconcile_twice_creates_once (toLower : String → String)
    (r : VirtualMachineReconciler) (env1 env2 : Env) (w : World) (vm : VirtualMachine)
    (hurl : r.GuacamoleBaseURL ≠ "") (h1 : env1.Succeeds) (h2 : env2.Succeeds)
    (hw : w.vm = some vm)
    (hnew : index vm.Annotations ProcessedAnnotation ≠ "true")
    (hrun : vm.PrintableStatus = VirtualMachineStatusRunning)
    (hdel : vm.DeletionTimestamp = none) :
    List.countP isCreate
        (Reconcile toLower r env2 (Reconcile toLower r env1 w).2).2.calls
      = List.countP isCreate w.calls + 1 ∧
    ∃ vm', (Reconcile toLower r env2 (Reconcile toLower r env1 w).2).2.vm = some vm' ∧
      lookup vm'.Annotations ProcessedAnnotation = some "true" ∧
      lookup vm'.Annotations GuacamoleConnectionIDAnnotation
        = some (createdId
            (if ContainsFinalizer vm VMWatcherFinalizer = true then env1 else env2)) := by
  by_cases hfin : ContainsFinalizer vm VMWatcherFinalizer = true
  · obtain ⟨_, vm', a, conn, hv, hc, hconn, hst⟩ :=
      step_create toLower r env1 w vm hurl h1 hw hdel hfin hnew hrun
    have hconn' : Connected vm' (createdId env1) vm'.PrintableStatus := by
      rw [hst, hrun]; exact hconn
    rw [step_same toLower r env2 _ vm' (createdId env1) h2 hv hconn']
    refine ⟨?_, vm', hv, hconn.2.2.1, ?_⟩
    · rw [hc]
      simp [List.countP_append, List.countP_cons, isCreate]
    · simp only [hfin, if_true]
      exact hconn.2.2.2.2
  · have hfin' : ContainsFinalizer vm VMWatcherFinalizer = false := by
      simpa using hfin
    obtain ⟨_, hv, hc⟩ := step_add_finalizer toLower r env1 w vm h1 hw hdel hfin'
    obtain ⟨ha, hd, hp⟩ := AddFinalizer_fields vm VMWatcherFinalizer
    obtain ⟨_, vm', a, conn, hv', hc', hconn, _⟩ :=
      step_create toLower r env2 (Reconcile toLower r env1 w).2
        (AddFinalizer vm VMWatcherFinalizer) hurl h2 hv (hd.trans hdel)
        (ContainsFinalizer_AddFinalizer vm VMWatcherFinalizer) (by rw [ha]; exact hnew)
        (hp.trans hrun)
    refine ⟨?_, vm', hv', hconn.2.2.1, ?_⟩
    · rw [hc', hc]
      simp [List.countP_append, List.countP_cons, isCreate]
    · simp only [hfin, if_false]
      exact hconn.2.2.2.2

/-- The idempotence theorem applies to the running sample machine before it carries the
finalizer: two invocations, one create request, connection `42` recorded. -/
theorem Reconcile_twice_creates_once_witness :
    List.countP isCreate
        (Reconcile asciiLower sampleReconciler sampleEnv
          (Reconcile asciiLower sampleReconciler sampleEnv
            (initialWorld newRunningVM)).2).2.calls = 1 ∧
    ∃ vm', (Reconcile asciiLower sampleReconciler sampleEnv
          (Reconcile asciiLower sampleReconciler sampleEnv
            (initialWorld newRunningVM)).2).2.vm = some vm' ∧
      lookup vm'.Annotations ProcessedAnnotation = some "true" ∧
      lookup vm'.Annotations GuacamoleConnectionIDAnnotation = some "42" :=
  Reconcile_twice_creates_once asciiLower sampleReconciler sampleEnv sampleEnv
    (initialWorld newRunningVM) newRunningVM (by decide) sampleEnv_succeeds
    sampleEnv_succeeds rfl (by decide) rfl rfl

/-! ## Reconciliation engine: a whole lifecycle -/

theorem requestDeletion_vm (t : Nat) (w : World) (vm : VirtualMachine)
    (hw : w.vm = some vm) :
    (requestDeletion t w).vm = some { vm with DeletionTimestamp := some t } := by
  simp [requestDeletion, hw]

/-- After the Create notification and the first Running notification the machine is
connected, and one create request has been sent. -/
theorem lifecycle_connects (toLower : String → String) (r : VirtualMachineReconciler)
    (e1 e2 e3 : Env) (w : World) (vm : VirtualMachine)
    (hurl : r.GuacamoleBaseURL ≠ "")
    (h1 : e1.Succeeds) (h2 : e2.Succeeds) (h3 : e3.Succeeds)
    (hw : w.vm = some vm)
    (hfin : ContainsFinalizer vm VMWatcherFinalizer = false)
    (hdel : vm.DeletionTimestamp = none)
    (hP : lookup vm.Annotations ProcessedAnnotation = none) :
    ∃ (vm' : VirtualMachine) (a : GuacamoleAuthResponse) (conn : GuacamoleConnection),
      (Reconcile toLower r e3
        (setStatus VirtualMachineStatusRunning (deliver toLower r e1 e2 w))).2.vm
          = some vm' ∧
      (Reconcile toLower r e3
        (setStatus VirtualMachineStatusRunning (deliver toLower r e1 e2 w))).2.calls
          = w.calls ++ [.authenticate r.GuacamoleUsername r.GuacamolePassword,
              .createConnection a.DataSource a.AuthToken conn] ∧
      Connected vm'
        (createdId (if vm.PrintableStatus = VirtualMachineStatusRunning then e2 else e3))
        VirtualMachineStatusRunning := by
  obtain ⟨hrq, hv, hc⟩ := step_add_finalizer toLower r e1 w vm h1 hw hdel hfin
  obtain ⟨ha, hd, hp⟩ := AddFinalizer_fields vm VMWatcherFinalizer
  have hnew : index (AddFinalizer vm VMWatcherFinalizer).Annotations ProcessedAnnotation
      ≠ "true" := by
    rw [ha, index_of_lookup_none _ _ hP]; decide
  have hfin' := ContainsFinalizer_AddFinalizer vm VMWatcherFinalizer
  rw [deliver_eq]
  simp only [hrq, if_true]
  by_cases hrun : vm.PrintableStatus = VirtualMachineStatusRunning
  · obtain ⟨_, vm2, a, conn, hv2, hc2, hconn, hst⟩ :=
      step_create toLower r e2 (Reconcile toLower r e1 w).2
        (AddFinalizer vm VMWatcherFinalizer) hurl h2 hv (hd.trans hdel) hfin' hnew
        (hp.trans hrun)
    have hv3 := setStatus_vm VirtualMachineStatusRunning _ vm2 hv2
    have hconn3 : Connected { vm2 with PrintableStatus := VirtualMachineStatusRunning }
        (createdId e2)
        ({ vm2 with PrintableStatus := VirtualMachineStatusRunning }).PrintableStatus :=
      hconn
    rw [step_same toLower r e3 _ _ (createdId e2) h3 hv3 hconn3]
    refine ⟨_, a, conn, hv3, ?_, ?_⟩
    · show (Reconcile toLower r e2 (Reconcile toLower r e1 w).2).2.calls = _
      rw [hc2, hc]
    · simp only [hrun, if_true]
      exact hconn
  · rw [Reconcile_waits toLower r e2 (Reconcile toLower r e1 w).2
      (AddFinalizer vm VMWatcherFinalizer) h2.1 hv (hd.trans hdel) hfin' hnew
      (by rw [hp]; exact hrun)]
    have hv3 := setStatus_vm VirtualMachineStatusRunning _ _ hv
    obtain ⟨_, vm3, a, conn, hv4, hc4, hconn, _⟩ :=
      step_create toLower r e3
        (setStatus VirtualMachineStatusRunning (Reconcile toLower r e1 w).2)
        { AddFinalizer vm VMWatcherFinalizer with
          PrintableStatus := VirtualMachineStatusRunning }
        hurl h3 hv3 (hd.trans hdel) hfin' hnew rfl
    refine ⟨vm3, a, conn, hv4, ?_, ?_⟩
    · rw [hc4]
      show (Reconcile toLower r e1 w).2.calls ++ _ = _
      rw [hc]
    · simp only [hrun, if_false]
      exact hconn

theorem emptyIdEnv_succeeds : emptyIdEnv.Succeeds := by
  refine ⟨rfl, rfl, ?_, ⟨_, rfl⟩, ⟨200, _, rfl, by decide, by decide⟩,
    ⟨204, _, rfl, by decide, by decide⟩, ⟨204, _, rfl, by decide, by decide⟩⟩
  intro e h
  have h' : (Except.error Error.notFound : Except Error VirtualMachineInstance)
      = .error e := h
  injection h' with h'
  exact h'.symm

/-- C2, as stated, fails: every store and gateway call of the run succeeds, but the
gateway answers the create request with status 200 and an empty identifier. The fresh
machine goes through Create, status Running, status Stopped, status Running, deletion
requested; the finalizer is absent at the end, yet the gateway has received one create
request, no update request and no delete request, and the persisted connection-id is
empty. -/
theorem lifecycle_empty_identifier_sends_no_update_no_delete :
    emptyIdEnv.Succeeds ∧
    sampleReconciler.GuacamoleBaseURL ≠ "" ∧
    ContainsFinalizer freshVM VMWatcherFinalizer = false ∧
    freshVM.DeletionTimestamp = none ∧
    freshVM.Annotations = none ∧
    createdId emptyIdEnv = "" ∧
    ((lifecycle asciiLower sampleReconciler emptyIdEnv emptyIdEnv emptyIdEnv emptyIdEnv
        emptyIdEnv emptyIdEnv 1700000000 (initialWorld freshVM)).vm.map
      (fun vm => (vm.Finalizers, lookup vm.Annotations GuacamoleConnectionIDAnnotation)))
      = some ([], some "") ∧
    List.countP isCreate
      (lifecycle asciiLower sampleReconciler emptyIdEnv emptyIdEnv emptyIdEnv emptyIdEnv
        emptyIdEnv emptyIdEnv 1700000000 (initialWorld freshVM)).calls = 1 ∧
    List.countP isUpdate
      (lifecycle asciiLower sampleReconciler emptyIdEnv emptyIdEnv emptyIdEnv emptyIdEnv
        emptyIdEnv emptyIdEnv 1700000000 (initialWorld freshVM)).calls = 0 ∧
    List.countP isDelete
      (lifecycle asciiLower sampleReconciler emptyIdEnv emptyIdEnv emptyIdEnv emptyIdEnv
        emptyIdEnv emptyIdEnv 1700000000 (initialWorld freshVM)).calls = 0 :=
  ⟨emptyIdEnv_succeeds, by decide, by decide, rfl, rfl, rfl, by decide, by decide,
    by decide, by decide⟩

/-- C2, amended: starting from a freshly created machine without engine-owned annotation
and without the finalizer, with a configured gateway and every store and gateway call
succeeding, and the create request answered with a non-empty identifier, the sequence
Create, status Running, status Stopped, status Running, deletion requested ends with the
finalizer absent; the gateway has received exactly one create, one update and one delete
request, and the delete request names the identifier that the create request returned
and that is persisted as connection-id. -/
theorem lifecycle_converges (toLower : String → String) (r : VirtualMachineReconciler)
    (e1 e2 e3 e4 e5 e6 : Env) (t : Nat) (w : World) (vm : VirtualMachine)
    (hurl : r.GuacamoleBaseURL ≠ "")
    (h1 : e1.Succeeds) (h2 : e2.Succeeds) (h3 : e3.Succeeds) (h4 : e4.Succeeds)
    (h5 : e5.Succeeds) (h6 : e6.Succeeds)
    (hw : w.vm = some vm)
    (hfin : ContainsFinalizer vm VMWatcherFinalizer = false)
    (hdel : vm.DeletionTimestamp = none)
    (hP : lookup vm.Annotations ProcessedAnnotation = none)
    (_hL : lookup vm.Annotations LastStatusAnnotation = none)
    (_hC : lookup vm.Annotations GuacamoleConnectionIDAnnotation = none)
    (hid : createdId (if vm.PrintableStatus = VirtualMachineStatusRunning then e2 else e3)
      ≠ "") :
    ∃ (vm' : VirtualMachine) (sent : List GatewayCall),
      (lifecycle toLower r e1 e2 e3 e4 e5 e6 t w).vm = some vm' ∧
      VMWatcherFinalizer ∉ vm'.Finalizers ∧
      lookup vm'.Annotations GuacamoleConnectionIDAnnotation
        = some (createdId
            (if vm.PrintableStatus = VirtualMachineStatusRunning then e2 else e3)) ∧
      (lifecycle toLower r e1 e2 e3 e4 e5 e6 t w).calls = w.calls ++ sent ∧
      List.countP isCreate sent = 1 ∧
      List.countP isUpdate sent = 1 ∧
      List.countP isDelete sent = 1 ∧
      ∀ c ∈ sent, isDelete c = true →
        ∃ ds tok, c = .deleteConnection ds tok
          (createdId
            (if vm.PrintableStatus = VirtualMachineStatusRunning then e2 else e3)) := by
  obtain ⟨vm3, a3, conn3, hv3, hc3, hconn3⟩ :=
    lifecycle_connects toLower r e1 e2 e3 w vm hurl h1 h2 h3 hw hfin hdel hP
  generalize createdId (if vm.PrintableStatus = VirtualMachineStatusRunning then e2 else e3)
    = id at hid hconn3 ⊢
  unfold lifecycle
  simp only []
  generalize (Reconcile toLower r e3
    (setStatus VirtualMachineStatusRunning (deliver toLower r e1 e2 w))).2 = w3
    at hv3 hc3 ⊢
  -- status Stopped
  have hv3' := setStatus_vm VirtualMachineStatusStopped w3 vm3 hv3
  obtain ⟨vm4, hv4, hc4, hconn4, _⟩ :=
    step_stop toLower r e4 (setStatus VirtualMachineStatusStopped w3)
      { vm3 with PrintableStatus := VirtualMachineStatusStopped } id h4 hv3' hconn3 rfl
  generalize (Reconcile toLower r e4 (setStatus VirtualMachineStatusStopped w3)).2 = w4
    at hv4 hc4 ⊢
  -- status Running
  have hv4' := setStatus_vm VirtualMachineStatusRunning w4 vm4 hv4
  obtain ⟨vm5, a5, conn5, hv5, hc5, hconn5, _⟩ :=
    step_restart toLower r e5 (setStatus VirtualMachineStatusRunning w4)
      { vm4 with PrintableStatus := VirtualMachineStatusRunning } id hurl h5 hv4' hconn4
      hid rfl
  generalize (Reconcile toLower r e5 (setStatus VirtualMachineStatusRunning w4)).2 = w5
    at hv5 hc5 ⊢
  -- deletion requested
  have hv5' := requestDeletion_vm t w5 vm5 hv5
  obtain ⟨vm6, a6, hv6, hc6, hfin6, hC6⟩ :=
    step_delete toLower r e6 (requestDeletion t w5)
      { vm5 with DeletionTimestamp := some t } id hurl h6 hv5' (by simp)
      hconn5.2.2.2.2 hid
  refine ⟨vm6,
    [.authenticate r.GuacamoleUsername r.GuacamolePassword,
      .createConnection a3.DataSource a3.AuthToken conn3,
      .authenticate r.GuacamoleUsername r.GuacamolePassword,
      .updateConnection a5.DataSource a5.AuthToken id conn5,
      .authenticate r.GuacamoleUsername r.GuacamolePassword,
      .deleteConnection a6.DataSource a6.AuthToken id],
    hv6, hfin6, hC6, ?_, rfl, rfl, rfl, ?_⟩
  · rw [hc6]
    show w5.calls ++ _ = _
    rw [hc5]
    show w4.calls ++ _ ++ _ = _
    rw [hc4]
    show w3.calls ++ _ ++ _ = _
    rw [hc3]
    simp
  · intro c hc hdelc
    simp only [List.mem_cons, List.mem_singleton, List.not_mem_nil, or_false] at hc
    rcases hc with h | h | h | h | h | h <;> subst h <;>
      first
        | exact ⟨_, _, rfl⟩
        | exact absurd hdelc (by simp [isDelete])

/-- The lifecycle theorem applies to the fresh sample machine with a gateway that names
the connection `42`: the run ends without finalizer. -/
theorem lifecycle_converges_witness :
    ∃ (vm' : VirtualMachine) (sent : List GatewayCall),
      (lifecycle asciiLower sampleReconciler sampleEnv sampleEnv sampleEnv sampleEnv
        sampleEnv sampleEnv 1700000000 (initialWorld freshVM)).vm = some vm' ∧
      VMWatcherFinalizer ∉ vm'.Finalizers ∧
      lookup vm'.Annotations GuacamoleConnectionIDAnnotation = some "42" ∧
      (lifecycle asciiLower sampleReconciler sampleEnv sampleEnv sampleEnv sampleEnv
        sampleEnv sampleEnv 1700000000 (initialWorld freshVM)).calls = [] ++ sent ∧
      List.countP isCreate sent = 1 ∧
      List.countP isUpdate sent = 1 ∧
      List.countP isDelete sent = 1 ∧
      ∀ c ∈ sent, isDelete c = true → ∃ ds tok, c = .deleteConnection ds tok "42" :=
  lifecycle_converges asciiLower sampleReconciler sampleEnv sampleEnv sampleEnv sampleEnv
    sampleEnv sampleEnv 1700000000 (initialWorld freshVM) freshVM (by decide)
    sampleEnv_succeeds sampleEnv_succeeds sampleEnv_succeeds sampleEnv_succeeds
    sampleEnv_succeeds sampleEnv_succeeds rfl (by decide) rfl rfl rfl rfl (by decide)

/-! ## Reconciliation engine: the finalizer comes first -/

theorem authenticateWithGuacamole_creates (r : VirtualMachineReconciler) (env : Env)
    (log : List GatewayCall) :
    List.countP isCreate (authenticateWithGuacamole r env log).2
      = List.countP isCreate log := by
  unfold authenticateWithGuacamole
  split
  · rfl
  · split
    · rfl
    · simp [List.countP_append, List.countP_cons, isCreate]
    · simp only []
      split
      · simp [List.countP_append, List.countP_cons, isCreate]
      · split <;> simp [List.countP_append, List.countP_cons, isCreate]

theorem handleVMDeletion_creates (r : VirtualMachineReconciler) (env : Env)
    (id : String) (log : List GatewayCall) :
    List.countP isCreate (handleVMDeletion r env id log).2 = List.countP isCreate log := by
  have ha := authenticateWithGuacamole_creates r env log
  unfold handleVMDeletion
  split
  · rfl
  · rcases hA : authenticateWithGuacamole r env log with ⟨res, log₁⟩
    rw [hA] at ha
    cases res with
    | error e => exact ha
    | ok a =>
      simp only []
      split
      · exact ha
      · simpa [List.countP_append, List.countP_cons, isCreate] using ha
      · split <;> simpa [List.countP_append, List.countP_cons, isCreate] using ha

theorem updateGuacamoleConnection_creates (toLower : String → String)
    (r : VirtualMachineReconciler) (env : Env) (vm : VirtualMachine) (id : String)
    (log : List GatewayCall) :
    List.countP isCreate (updateGuacamoleConnection toLower r env vm id log).2
      = List.countP isCreate log := by
  have ha := authenticateWithGuacamole_creates r env log
  unfold updateGuacamoleConnection
  rcases hA : authenticateWithGuacamole r env log with ⟨res, log₁⟩
  rw [hA] at ha
  cases res with
  | error e => exact ha
  | ok a =>
    simp only []
    cases buildGuacamoleConnection toLower env vm with
    | error e => exact ha
    | ok conn =>
      simp only []
      split
      · exact ha
      · simpa [List.countP_append, List.countP_cons, isCreate] using ha
      · split <;> simpa [List.countP_append, List.countP_cons, isCreate] using ha

theorem Update_calls (env : Env) (vm : VirtualMachine) (w : World)
    (res res' : Result) :
    (match Update env vm w with
      | (some err, w') => ((res, some err), w')
      | (none, w') => ((res', none), w')).2.calls = w.calls := by
  cases hu : env.storeUpdate <;> simp [Update, hu]

/-- C11: an invocation of `Reconcile` that sends a create request to the gateway has read
a snapshot that carries the finalizer (and has no deletion requested); and for a stored
machine without deletion requested that lacks the finalizer, `Reconcile` sends nothing to
the gateway and hands to the store's `Update` the snapshot with only the finalizer added,
and when that write succeeds the store holds it and an immediate requeue is asked. -/
theorem Reconcile_finalizer_precedes_connection (toLower : String → String)
    (r : VirtualMachineReconciler) (env : Env) (w : World) :
    (List.countP isCreate (Reconcile toLower r env w).2.calls
        ≠ List.countP isCreate w.calls →
      ∃ vm, env.getVM = none ∧ w.vm = some vm ∧ vm.DeletionTimestamp = none ∧
        VMWatcherFinalizer ∈ vm.Finalizers) ∧
    (∀ vm, env.getVM = none → w.vm = some vm → vm.DeletionTimestamp = none →
      VMWatcherFinalizer ∉ vm.Finalizers →
        (Reconcile toLower r env w).2.calls = w.calls ∧
        (Reconcile toLower r env w).2.updates
          = w.updates ++ [{ vm with Finalizers := vm.Finalizers ++ [VMWatcherFinalizer] }] ∧
        (env.storeUpdate = none →
          (Reconcile toLower r env w).1 = ({ Requeue := true, RequeueAfter := 0 }, none) ∧
          (Reconcile toLower r env w).2.vm
            = some { vm with Finalizers := vm.Finalizers ++ [VMWatcherFinalizer] })) := by
  constructor
  · intro hne
    cases hg : env.getVM with
    | some err =>
      exfalso
      apply hne
      cases hi : IgnoreNotFound err <;>
        simp [Reconcile, Get, hg, hi, handleVMDeletion]
    | none =>
      cases hw : w.vm with
      | none =>
        exfalso
        apply hne
        simp [Reconcile, Get, hg, hw, IgnoreNotFound, handleVMDeletion]
      | some vm =>
        by_cases hdel : vm.DeletionTimestamp = none
        · by_cases hfin : ContainsFinalizer vm VMWatcherFinalizer = true
          · exact ⟨vm, rfl, rfl, hdel, by simpa [ContainsFinalizer] using hfin⟩
          · exfalso
            apply hne
            have hfin' : ContainsFinalizer vm VMWatcherFinalizer = false := by
              simpa using hfin
            rw [Reconcile_adds_finalizer toLower r env w vm hg hw hdel hfin', Update_calls]
        · exfalso
          apply hne
          rw [Reconcile_deleting toLower r env w vm hg hw hdel]
          unfold handleDeletion
          simp only []
          rw [Update_calls]
          exact handleVMDeletion_creates r env _ w.calls
  · intro vm hg hw hdel hnot
    have hfin : ContainsFinalizer vm VMWatcherFinalizer = false := by
      simp only [ContainsFinalizer, List.any_eq_false, decide_eq_true_eq]
      intro x hx hxe
      exact hnot (hxe ▸ hx)
    rw [Reconcile_adds_finalizer toLower r env w vm hg hw hdel hfin]
    refine ⟨Update_calls _ _ _ _ _, ?_, ?_⟩
    · cases hu : env.storeUpdate <;> simp [Update, hu, AddFinalizer, hfin]
    · intro hu
      simp [Update, hu, AddFinalizer, hfin]

/-- The finalizer theorem applies to the running sample machine without finalizer: nothing
is sent to the gateway and an immediate requeue is asked. -/
theorem Reconcile_finalizer_precedes_connection_witness :
    (Reconcile asciiLower sampleReconciler sampleEnv (initialWorld newRunningVM)).2.calls
        = [] ∧
    (Reconcile asciiLower sampleReconciler sampleEnv (initialWorld newRunningVM)).1
        = ({ Requeue := true, RequeueAfter := 0 }, none) :=
  have h := (Reconcile_finalizer_precedes_connection asciiLower sampleReconciler sampleEnv
    (initialWorld newRunningVM)).2 newRunningVM rfl rfl rfl (by decide)
  ⟨h.1, (h.2.2 rfl).1⟩

/-! ## Reconciliation engine: the absent resource -/

/-- C15: when the fetch of the resource fails, `Reconcile` sends nothing to the gateway
and writes nothing (the cleanup called with the empty identifier returns at once, for
every gateway outcome); for a not-found answer it returns Done with no error, and any
other fetch error is returned as the error. -/
theorem Reconcile_absent_resource (toLower : String → String)
    (r : VirtualMachineReconciler) (env : Env) (w : World) (err : Error)
    (hget : Get env w = .error err) :
    (Reconcile toLower r env w).2.calls = w.calls ∧
    (Reconcile toLower r env w).2.updates = w.updates ∧
    handleVMDeletion r env "" w.calls = (none, w.calls) ∧
    (err = .notFound →
      (Reconcile toLower r env w).1 = ({ Requeue := false, RequeueAfter := 0 }, none)) ∧
    (err ≠ .notFound →
      (Reconcile toLower r env w).1 = ({ Requeue := false, RequeueAfter := 0 }, some err)) := by
  have hd : handleVMDeletion r env "" w.calls = (none, w.calls) := by
    simp [handleVMDeletion]
  refine ⟨?_, ?_, hd, ?_, ?_⟩
  · cases hi : IgnoreNotFound err <;> simp [Reconcile, hget, hi, hd]
  · cases hi : IgnoreNotFound err <;> simp [Reconcile, hget, hi]
  · intro he
    subst he
    simp [Reconcile, hget, IgnoreNotFound]
  · intro he
    cases err <;> simp_all [Reconcile, IgnoreNotFound]

/-- The absent-resource theorem applies to the empty store: Done, nothing sent. -/
theorem Reconcile_absent_resource_witness :
    (Reconcile asciiLower sampleReconciler sampleEnv emptyWorld).2.calls = [] ∧
    (Reconcile asciiLower sampleReconciler sampleEnv emptyWorld).1
        = ({ Requeue := false, RequeueAfter := 0 }, none) :=
  have h := Reconcile_absent_resource asciiLower sampleReconciler sampleEnv emptyWorld
    .notFound rfl
  ⟨h.1, h.2.2.2.1 rfl⟩

/-! ## Eligibility filter -/

/-- C14: the update predicate returns true if and only if the processed annotation (as
read from the annotations, the empty string when it is absent) differs between the old
and the new snapshot, or the printable status differs, or the generation differs; the
create predicate and the delete predicate return true for every event. -/
theorem UpdateFunc_iff (old new : VirtualMachine) :
    (UpdateFunc { ObjectOld := old, ObjectNew := new } = true ↔
      index old.Annotations ProcessedAnnotation ≠ index new.Annotations ProcessedAnnotation ∨
      old.PrintableStatus ≠ new.PrintableStatus ∨
      old.Generation ≠ new.Generation) ∧
    (∀ e : CreateEvent, CreateFunc e = true) ∧
    (∀ e : DeleteEvent, DeleteFunc e = true) := by
  refine ⟨?_, fun _ => rfl, fun _ => rfl⟩
  simp [UpdateFunc, or_assoc]

/-! ## Connection profile builder: credentials and fixed keys -/

theorem find?_fillEmptyParams_of_some (params : List String) (k v : String)
    (parameters : StrMap) (h : parameters.find? k = some v) :
    (fillEmptyParams params parameters).find? k = some v := by
  induction params generalizing parameters with
  | nil => exact h
  | cons p rest ih =>
    unfold fillEmptyParams
    cases hp : parameters.find? p with
    | some _ => exact ih parameters h
    | none =>
      have hne : p ≠ k := by
        intro e
        rw [e, h] at hp
        cases hp
      exact ih _ (by rw [StrMap.find?_insert_of_ne _ _ _ _ hne]; exact h)

theorem find?_fillEmptyParams_of_mem (params : List String) (k : String)
    (parameters : StrMap) (hk : k ∈ params) (h : parameters.find? k = none) :
    (fillEmptyParams params parameters).find? k = some "" := by
  induction params generalizing parameters with
  | nil => simp at hk
  | cons p rest ih =>
    unfold fillEmptyParams
    by_cases hpk : p = k
    · subst hpk
      rw [h]
      exact find?_fillEmptyParams_of_some rest p "" _ (StrMap.find?_insert_self _ _ _)
    · have hrest : k ∈ rest := by
        rcases List.mem_cons.mp hk with e | e
        · exact absurd e.symm hpk
        · exact e
      cases parameters.find? p with
      | some _ => exact ih parameters hrest h
      | none =>
        exact ih _ hrest (by rw [StrMap.find?_insert_of_ne _ _ _ _ hpk]; exact h)

/-- The profile that `buildGuacamoleConnection` returns once the hostname is resolved. -/
theorem buildGuacamoleConnection_eq (toLower : String → String) (env : Env)
    (vm : VirtualMachine) (hostname : String) (h : getVMHostname env vm = .ok hostname) :
    ∃ conn port, buildGuacamoleConnection toLower env vm = .ok conn ∧
      conn.Protocol = specProtocol toLower vm.Annotations ∧
      conn.Parameters = fillEmptyParams emptyParams
        (protocolParameters (specProtocol toLower vm.Annotations) vm.Annotations
          [("hostname", hostname), ("port", port)]) := by
  simp only [buildGuacamoleConnection, h]
  exact ⟨_, _, rfl, rfl, rfl⟩

/-- C12, as stated, fails: with the protocol `ssh` and a domain override present, the
built profile has no `domain` parameter. -/
theorem buildGuacamoleConnection_ssh_drops_domain :
    specProtocol asciiLower sshVM.Annotations = "ssh" ∧
    lookup sshVM.Annotations "vm-watcher.setofangdar.polito.it/domain" = some "CORP" ∧
    getVMHostname sampleEnv sshVM = .ok "vm1" ∧
    ∃ conn, buildGuacamoleConnection asciiLower sampleEnv sshVM = .ok conn ∧
      conn.Parameters.find? "domain" = none :=
  ⟨by decide, by decide, rfl, _, rfl, by decide⟩

/-- C12, amended: whenever the hostname resolves, the credential parameters of the built
profile are these. For `rdp`: `username`, `password` and `domain` are the override tags of
the same name when present and are absent otherwise, and there is no `private-key`. For
`ssh`: `username`, `password` and `private-key` are the override tags of the same name when
present and are absent otherwise, and there is no `domain`. For `vnc`: `password` is the
password tag when present and is absent otherwise, and there is no `username`, `domain` or
`private-key`. -/
theorem buildGuacamoleConnection_credentials (toLower : String → String) (env : Env)
    (vm : VirtualMachine) (hostname : String) (h : getVMHostname env vm = .ok hostname) :
    ∃ conn, buildGuacamoleConnection toLower env vm = .ok conn ∧
      (specProtocol toLower vm.Annotations = "rdp" →
        conn.Parameters.find? "username"
          = lookup vm.Annotations "vm-watcher.setofangdar.polito.it/username" ∧
        conn.Parameters.find? "password"
          = lookup vm.Annotations "vm-watcher.setofangdar.polito.it/password" ∧
        conn.Parameters.find? "domain"
          = lookup vm.Annotations "vm-watcher.setofangdar.polito.it/domain" ∧
        conn.Parameters.find? "private-key" = none) ∧
      (specProtocol toLower vm.Annotations = "ssh" →
        conn.Parameters.find? "username"
          = lookup vm.Annotations "vm-watcher.setofangdar.polito.it/username" ∧
        conn.Parameters.find? "password"
          = lookup vm.Annotations "vm-watcher.setofangdar.polito.it/password" ∧
        conn.Parameters.find? "private-key"
          = lookup vm.Annotations "vm-watcher.setofangdar.polito.it/private-key" ∧
        conn.Parameters.find? "domain" = none) ∧
      (specProtocol toLower vm.Annotations = "vnc" →
        conn.Parameters.find? "password"
          = lookup vm.Annotations "vm-watcher.setofangdar.polito.it/password" ∧
        conn.Parameters.find? "username" = none ∧
        conn.Parameters.find? "domain" = none ∧
        conn.Parameters.find? "private-key" = none) := by
  obtain ⟨conn, port, hc, _, hparams⟩ := buildGuacamoleConnection_eq toLower env vm hostname h
  have hu : "username" ∉ emptyParams := by decide
  have hp : "password" ∉ emptyParams := by decide
  have hd : "domain" ∉ emptyParams := by decide
  have hk : "private-key" ∉ emptyParams := by decide
  refine ⟨conn, hc, ?_, ?_, ?_⟩
  · intro hproto
    rw [hparams, hproto, find?_fillEmptyParams_of_not_mem _ _ hu,
      find?_fillEmptyParams_of_not_mem _ _ hp, find?_fillEmptyParams_of_not_mem _ _ hd,
      find?_fillEmptyParams_of_not_mem _ _ hk]
    cases hU : lookup vm.Annotations "vm-watcher.setofangdar.polito.it/username" <;>
    cases hP : lookup vm.Annotations "vm-watcher.setofangdar.polito.it/password" <;>
    cases hD : lookup vm.Annotations "vm-watcher.setofangdar.polito.it/domain" <;>
      simp [protocolParameters, copyAnnotation, StrMap.find?_insert_self,
        StrMap.find?_insert_of_ne, StrMap.find?, *]
  · intro hproto
    rw [hparams, hproto, find?_fillEmptyParams_of_not_mem _ _ hu,
      find?_fillEmptyParams_of_not_mem _ _ hp, find?_fillEmptyParams_of_not_mem _ _ hd,
      find?_fillEmptyParams_of_not_mem _ _ hk]
    cases hU : lookup vm.Annotations "vm-watcher.setofangdar.polito.it/username" <;>
    cases hP : lookup vm.Annotations "vm-watcher.setofangdar.polito.it/password" <;>
    cases hK : lookup vm.Annotations "vm-watcher.setofangdar.polito.it/private-key" <;>
      simp [protocolParameters, copyAnnotation, StrMap.find?_insert_self,
        StrMap.find?_insert_of_ne, StrMap.find?, *]
  · intro hproto
    rw [hparams, hproto, find?_fillEmptyParams_of_not_mem _ _ hu,
      find?_fillEmptyParams_of_not_mem _ _ hp, find?_fillEmptyParams_of_not_mem _ _ hd,
      find?_fillEmptyParams_of_not_mem _ _ hk]
    cases hP : lookup vm.Annotations "vm-watcher.setofangdar.polito.it/password" <;>
      simp [protocolParameters, copyAnnotation, StrMap.find?_insert_self,
        StrMap.find?_insert_of_ne, StrMap.find?, *]

/-- The amended credential theorem applies to the `ssh` sample machine: the private key is
copied and no domain is emitted. -/
theorem buildGuacamoleConnection_credentials_witness :
    getVMHostname sampleEnv sshVM = .ok "vm1" ∧
    ∃ conn, buildGuacamoleConnection asciiLower sampleEnv sshVM = .ok conn ∧
      conn.Parameters.find? "username" = some "root" ∧
      conn.Parameters.find? "private-key" = some "KEY" ∧
      conn.Parameters.find? "domain" = none :=
  ⟨rfl,
    match buildGuacamoleConnection_credentials asciiLower sampleEnv sshVM "vm1" rfl with
    | ⟨conn, hc, _, hssh, _⟩ =>
      ⟨conn, hc, (hssh (by decide)).1, (hssh (by decide)).2.2.1, (hssh (by decide)).2.2.2⟩⟩

theorem find?_protocolParameters_vnc_of_mem_emptyParams (annotations : Option StrMap)
    (hostname port k : String) (hk : k ∈ emptyParams) :
    (protocolParameters "vnc" annotations [("hostname", hostname), ("port", port)]).find? k
      = none := by
  simp only [emptyParams, List.mem_cons, List.mem_singleton, List.not_mem_nil, or_false]
    at hk
  rcases hk with h | h | h | h | h | h | h | h <;> subst h <;>
    cases hP : lookup annotations "vm-watcher.setofangdar.polito.it/password" <;>
      simp [protocolParameters, copyAnnotation, StrMap.find?_insert_of_ne, StrMap.find?, hP]

/-- C13: for every annotation map whose protocol override lower-cases to `vnc`, whenever
the hostname resolves, the parameters of the built profile map each of the eight keys
`recording-path`, `recording-name`, `recording-exclude-output`, `recording-exclude-mouse`,
`recording-include-keys`, `create-recording-path`, `dest-host` and `dest-port` to the empty
string, whatever the other override tags are. -/
theorem buildGuacamoleConnection_vnc_full_parameters (toLower : String → String)
    (env : Env) (vm : VirtualMachine) (hostname override : String)
    (h : getVMHostname env vm = .ok hostname)
    (hov : lookup vm.Annotations "vm-watcher.setofangdar.polito.it/protocol" = some override)
    (hvnc : toLower override = "vnc") :
    ∃ conn, buildGuacamoleConnection toLower env vm = .ok conn ∧
      conn.Protocol = "vnc" ∧
      ∀ k ∈ ["recording-path", "recording-name", "recording-exclude-output",
          "recording-exclude-mouse", "recording-include-keys", "create-recording-path",
          "dest-host", "dest-port"],
        conn.Parameters.find? k = some "" := by
  obtain ⟨conn, port, hc, hproto, hparams⟩ :=
    buildGuacamoleConnection_eq toLower env vm hostname h
  have hp : specProtocol toLower vm.Annotations = "vnc" := by
    simp [specProtocol, hov, hvnc]
  refine ⟨conn, hc, hproto.trans hp, ?_⟩
  intro k hk
  rw [hparams, hp]
  exact find?_fillEmptyParams_of_mem emptyParams k _ hk
    (find?_protocolParameters_vnc_of_mem_emptyParams vm.Annotations hostname port k hk)

/-- The full-parameter theorem applies to the sample machine with the override `VNC`. -/
theorem buildGuacamoleConnection_vnc_full_parameters_witness :
    ∃ conn, buildGuacamoleConnection asciiLower sampleEnv vncVM = .ok conn ∧
      conn.Protocol = "vnc" ∧
      ∀ k ∈ ["recording-path", "recording-name", "recording-exclude-output",
          "recording-exclude-mouse", "recording-include-keys", "create-recording-path",
          "dest-host", "dest-port"],
        conn.Parameters.find? k = some "" :=
  buildGuacamoleConnection_vnc_full_parameters asciiLower sampleEnv vncVM "vm1" "VNC" rfl
    (by decide) (by decide)

end GuacOperator
